import Mathlib

/-!
Verification development for the mwgp WireGuard obfuscating proxy.

The obfuscator (`obfs.go`) is embedded shallowly: a packet is a byte
buffer modelled as a function from index to byte value together with a
current length and a flag word, exactly the fields the Go `Packet` uses
on the obfuscation hot path.  Byte values are `Nat`; every operation the
code performs (XOR, AND, OR) stays below 256 when its inputs do, and the
theorems never depend on a wrap-around.

External collaborators are abstracted as function parameters:

* the streaming XXH64 digest of github.com/cespare/xxhash is a parameter
  `xxh : List Nat -> List Nat -> Nat -> Nat -> Nat`, where
  `xxh nonce userKeyHash n i` is byte `i` (0 <= i < 8) of the digest
  snapshot taken after writing `nonce` once and `userKeyHash` (n+1)
  times into one running state -- the snapshotting construction of
  `Obfuscate`/`Deobfuscate`; we only use that it is a deterministic
  function of these inputs, which every theorem quantifies over;
* SHA-256 of crypto/sha256 is a parameter `sha256Sum : List Nat -> List Nat`.

Constants copied from wireguard-go's `device` package (an external
dependency): message types 1..4, fixed sizes 148/92/64, transport header
size 16, `MinMessageSize = 32`.
-/

namespace Mwgp

/-! ### Constants (wireguard-go `device` package and `obfs.go`) -/

def MessageInitiationType : Nat := 1

def MessageResponseType : Nat := 2

def MessageCookieReplyType : Nat := 3

def MessageTransportType : Nat := 4

def MessageInitiationSize : Nat := 148

def MessageResponseSize : Nat := 92

def MessageCookieReplySize : Nat := 64

def MessageTransportHeaderSize : Nat := 16

def MinMessageSize : Nat := 32

def kObfuscateRandomSuffixMaxLength : Nat := 384

def kObfuscateSuffixAsNonceMinLength : Nat := 256

def kObfuscateNonceLength : Nat := 16

def kObfuscateXORKeyLength : Nat := 8

def kMessageInitiationTypeMAC2Offset : Nat := 132

def kMessageResponseTypeMAC2Offset : Nat := 76

/-- Modelled from the spec: the packet flag bits.  `packet.go` is not part
of the sources at hand; the spec describes `flags` as a bit set over
ObfuscateBeforeSend and DeobfuscatedAfterReceived, and the obfuscator
tests and sets them with `&` and `|=`.  The concrete bit positions are
irrelevant to every claim. -/
def PacketFlagObfuscateBeforeSend : Nat := 1

/-- Modelled from the spec: second packet flag bit, see
`PacketFlagObfuscateBeforeSend`. -/
def PacketFlagDeobfuscatedAfterReceived : Nat := 2

/-! ### The packet buffer -/

/-- The mutable packet buffer of the hot path: `Data` (all bytes of the
fixed-capacity region, as a function from index to byte), the meaningful
prefix `Length`, and the transform `Flags` word. -/
structure Packet where
  data : Nat → Nat
  length : Nat
  flags : Nat

/-- Modelled from the spec: `packet.go` is not under the sources at hand.
Spec section 4.2.2 step 3 reads the message type as the revealed
`data[0]` (and `Deobfuscate` relies on that while `data[1]` still holds
the 0x01 marker), with the accessor only defined once at least the
4-byte header is present; outside 1..4 every caller takes its default
branch, so the sentinel value 0 is as good as any. -/
def Packet.MessageType (p : Packet) : Nat :=
  if p.length < 4 then 0 else p.data 0

/-- The 16-byte nonce `copy(nonce[:], packet.Data[packet.Length-16:])`
takes from the tail of the packet. -/
def Packet.tailNonce (p : Packet) : List Nat :=
  (List.range kObfuscateNonceLength).map fun i =>
    p.data (p.length - kObfuscateNonceLength + i)

/-! ### Byte-region operations -/

/-- Write a single byte: `packet.Data[i] = v`. -/
def setByte (d : Nat → Nat) (i v : Nat) : Nat → Nat :=
  fun j => if j = i then v else d j

/-- Overwrite the region `[start, stop)` from the source `src` (indexed by
absolute position): models `rand.Read(packet.Data[start:stop])` when
`src` is the random tape, and `memset(packet.Data[start:stop], 0)` when
`src` is constantly 0. -/
def writeRange (d : Nat → Nat) (src : Nat → Nat) (start stop : Nat) : Nat → Nat :=
  fun j => if start ≤ j ∧ j < stop then src j else d j

/-- The Go slice `d[a:b]` as a list of bytes. -/
def dataSlice (d : Nat → Nat) (a b : Nat) : List Nat :=
  (List.range (b - a)).map fun i => d (a + i)

/-- The local `isAllZero` helper of `Obfuscate`. -/
def isAllZero (l : List Nat) : Bool :=
  l.all (· == 0)

/-! ### Keystream -/

/-- `modifyHashMaskForWireGuardHeaderConflict` from `obfs.go`, on an
8-byte block given as a function from offset to byte:
if `b[0]&0b11111000 == 0 && b[1]&0b11111110 == 0` then
`b[0] |= 0b11010111; b[1] |= 0b01101001`. -/
def modifyHashMaskForWireGuardHeaderConflict (b : Nat → Nat) : Nat → Nat :=
  if b 0 &&& 0b11111000 = 0 ∧ b 1 &&& 0b11111110 = 0 then
    fun i => if i = 0 then b 0 ||| 0b11010111
             else if i = 1 then b 1 ||| 0b01101001
             else b i
  else b

/-- The sequence of 8-byte XOR key blocks both transforms draw from the
running digest: block `n` is the digest snapshot after the nonce and
(n+1) copies of the user key hash, and block 0 passes through
`modifyHashMaskForWireGuardHeaderConflict`. -/
def keystreamBlocks (xxh : List Nat → List Nat → Nat → Nat → Nat)
    (nonce userKeyHash : List Nat) : Nat → Nat → Nat :=
  fun n => if n = 0 then
    modifyHashMaskForWireGuardHeaderConflict (xxh nonce userKeyHash 0)
  else xxh nonce userKeyHash n

/-- The block-at-a-time XOR loop shared by `Obfuscate` (with
`start = 0`) and `Deobfuscate` (first 8 bytes, then `start = 8`):
`packet.Data[j] ^= xorKey[j-i]` for `j` in `[i, i+8) ∩ [start, stop)`
where `xorKey` is block `i/8`;  byte `j` therefore gets block `j/8`,
offset `j%8`. -/
def applyKeystreamFrom (blocks : Nat → Nat → Nat) (d : Nat → Nat)
    (start stop : Nat) : Nat → Nat :=
  fun j => if start ≤ j ∧ j < stop then d j ^^^ blocks (j / 8) (j % 8) else d j

/-! ### The obfuscator -/

/-- The obfuscator state: `enabled` and the 32-byte SHA-256 of the user
key.  (The UDP read/write function fields of the Go struct play no part
in the transforms.) -/
structure WireGuardObfuscator where
  enabled : Bool
  userKeyHash : List Nat

/-- `WireGuardObfuscator.Initialize`: an empty user key disables the
obfuscator; a non-empty one enables it and stores the SHA-256 of the
key (the hash function itself is the abstracted `sha256Sum`). -/
def WireGuardObfuscator.Initialize (sha256Sum : List Nat → List Nat)
    (o : WireGuardObfuscator) (userKey : List Nat) : WireGuardObfuscator :=
  if userKey.length = 0 then { o with enabled := false }
  else { enabled := true, userKeyHash := sha256Sum userKey }

/-- The tail of `Obfuscate` after the switch: read the nonce from the
last 16 bytes of the (already padded) data, derive the keystream, and
XOR the first `obfsPartLength` bytes. -/
def obfsXorEncode (xxh : List Nat → List Nat → Nat → Nat → Nat)
    (userKeyHash : List Nat) (d : Nat → Nat)
    (length obfsPartLength flags : Nat) : Packet :=
  { data := applyKeystreamFrom
      (keystreamBlocks xxh (Packet.tailNonce ⟨d, length, flags⟩) userKeyHash)
      d 0 obfsPartLength,
    length := length,
    flags := flags }

/-- `WireGuardObfuscator.Obfuscate` from `obfs.go`.  The two sources of
randomness are explicit parameters: `randInt` models the `rand.Int()`
used for the suffix length (taken modulo 384 exactly as the source
does), and `randBytes` is the random tape `rand.Read` copies from,
indexed by absolute buffer position. -/
def WireGuardObfuscator.Obfuscate (xxh : List Nat → List Nat → Nat → Nat → Nat)
    (o : WireGuardObfuscator) (randInt : Nat) (randBytes : Nat → Nat)
    (p : Packet) : Packet :=
  if !o.enabled then p
  else if p.flags &&& PacketFlagObfuscateBeforeSend = 0 then p
  else if p.MessageType = MessageInitiationType then
    let length := MessageInitiationSize + kObfuscateNonceLength +
      randInt % kObfuscateRandomSuffixMaxLength
    if isAllZero (dataSlice p.data kMessageInitiationTypeMAC2Offset MessageInitiationSize) then
      obfsXorEncode xxh o.userKeyHash
        (writeRange (setByte p.data 1 0x01) randBytes kMessageInitiationTypeMAC2Offset length)
        length kMessageInitiationTypeMAC2Offset p.flags
    else
      obfsXorEncode xxh o.userKeyHash
        (writeRange p.data randBytes MessageInitiationSize length)
        length MessageInitiationSize p.flags
  else if p.MessageType = MessageResponseType then
    let length := MessageResponseSize + kObfuscateNonceLength +
      randInt % kObfuscateRandomSuffixMaxLength
    if isAllZero (dataSlice p.data kMessageResponseTypeMAC2Offset MessageResponseSize) then
      obfsXorEncode xxh o.userKeyHash
        (writeRange (setByte p.data 1 0x01) randBytes kMessageResponseTypeMAC2Offset length)
        length kMessageResponseTypeMAC2Offset p.flags
    else
      obfsXorEncode xxh o.userKeyHash
        (writeRange p.data randBytes MessageResponseSize length)
        length MessageResponseSize p.flags
  else if p.MessageType = MessageCookieReplyType then
    let length := MessageCookieReplySize + kObfuscateNonceLength +
      randInt % kObfuscateRandomSuffixMaxLength
    obfsXorEncode xxh o.userKeyHash
      (writeRange p.data randBytes MessageCookieReplySize length)
      length MessageCookieReplySize p.flags
  else if p.MessageType = MessageTransportType then
    if p.length < kObfuscateSuffixAsNonceMinLength then
      obfsXorEncode xxh o.userKeyHash
        (writeRange (setByte p.data 1 0x01) randBytes p.length (p.length + kObfuscateNonceLength))
        (p.length + kObfuscateNonceLength) MessageTransportHeaderSize p.flags
    else
      obfsXorEncode xxh o.userKeyHash p.data p.length MessageTransportHeaderSize p.flags
  else p

/-- The tail of `Deobfuscate` after the switch: XOR blocks 1, 2, ... over
`[8, obfsPartLength)` and set `PacketFlagDeobfuscatedAfterReceived`. -/
def deobfsFinish (blocks : Nat → Nat → Nat) (d : Nat → Nat)
    (length obfsPartLength flags : Nat) : Packet :=
  { data := applyKeystreamFrom blocks d kObfuscateXORKeyLength obfsPartLength,
    length := length,
    flags := flags ||| PacketFlagDeobfuscatedAfterReceived }

/-- The body of `Deobfuscate` past its three early returns: decode the
first 8 bytes with block 0, switch on the revealed message type, and
finish with the remaining blocks.  `nonce` was read from the packet tail
before any byte changed. -/
def deobfsDecode (xxh : List Nat → List Nat → Nat → Nat → Nat)
    (userKeyHash nonce : List Nat) (p : Packet) : Packet :=
  let blocks := keystreamBlocks xxh nonce userKeyHash
  let d0 := applyKeystreamFrom blocks p.data 0 kObfuscateXORKeyLength
  let mt := Packet.MessageType ⟨d0, p.length, p.flags⟩
  if mt = MessageInitiationType then
    if d0 1 = 0x01 then
      deobfsFinish blocks
        (writeRange (setByte d0 1 0) (fun _ => 0)
          kMessageInitiationTypeMAC2Offset MessageInitiationSize)
        MessageInitiationSize kMessageInitiationTypeMAC2Offset p.flags
    else
      deobfsFinish blocks d0 MessageInitiationSize MessageInitiationSize p.flags
  else if mt = MessageResponseType then
    if d0 1 = 0x01 then
      deobfsFinish blocks
        (writeRange (setByte d0 1 0) (fun _ => 0)
          kMessageResponseTypeMAC2Offset MessageResponseSize)
        MessageResponseSize kMessageResponseTypeMAC2Offset p.flags
    else
      deobfsFinish blocks d0 MessageResponseSize MessageResponseSize p.flags
  else if mt = MessageCookieReplyType then
    deobfsFinish blocks d0 MessageCookieReplySize MessageCookieReplySize p.flags
  else if mt = MessageTransportType then
    if d0 1 = 0x01 then
      deobfsFinish blocks (setByte d0 1 0)
        (p.length - kObfuscateNonceLength) MessageTransportHeaderSize p.flags
    else
      deobfsFinish blocks d0 p.length MessageTransportHeaderSize p.flags
  else
    { p with data := d0 }

/-- `WireGuardObfuscator.Deobfuscate` from `obfs.go`: identity when
disabled, when the packet is shorter than `MinMessageSize`, or when its
first four bytes already form a canonical WireGuard header. -/
def WireGuardObfuscator.Deobfuscate (xxh : List Nat → List Nat → Nat → Nat → Nat)
    (o : WireGuardObfuscator) (p : Packet) : Packet :=
  if !o.enabled then p
  else if p.length < MinMessageSize then p
  else if 1 ≤ p.data 0 ∧ p.data 0 ≤ 4 ∧ p.data 1 = 0 ∧ p.data 2 = 0 ∧ p.data 3 = 0 then p
  else deobfsDecode xxh o.userKeyHash (Packet.tailNonce p) p

/-! ### The client-side mangler (`client.go`) -/

/-- The client state used by `manglePacket`: the stamped peer id and the
optional repeating XOR key (`NewClientWithConfig` leaves `xorKey` nil
exactly when the configured key is empty). -/
structure Client where
  id : Nat
  xorKey : Option (List Nat)

/-- `Client.manglePacket` from `client.go`, faithful to the missing
`return` of the source: when `len(packet) < 4` it only ASSIGNS the
`ErrPacketTooShort` error and falls through, so `packet[1] = byte(c.id)`
runs on every datagram.  A datagram of length 0 or 1 therefore panics
with an index-out-of-range, modelled here as `none`.  Otherwise the
result carries the mangled bytes and the error value (`some length`
standing for `ErrPacketTooShort{Length: length}`). -/
def Client.manglePacket (c : Client) (packet : List Nat) : Option (List Nat × Option Nat) :=
  let err : Option Nat := if packet.length < 4 then some packet.length else none
  if packet.length < 2 then none
  else
    let p1 := packet.set 1 (c.id % 256)
    let p2 := match c.xorKey with
      | none => p1
      | some key => p1.mapIdx fun i b => b ^^^ key.getD (i % key.length) 0
    some (p2, err)

/-! ### Pointwise helper lemmas -/

lemma setByte_at (d : Nat → Nat) (i v : Nat) : setByte d i v i = v := by
  simp [setByte]

lemma setByte_ne (d : Nat → Nat) {j i : Nat} (v : Nat) (h : j ≠ i) :
    setByte d i v j = d j := by
  simp [setByte, h]

lemma writeRange_out (d src : Nat → Nat) {j a b : Nat} (h : ¬(a ≤ j ∧ j < b)) :
    writeRange d src a b j = d j := by
  simp only [writeRange, if_neg h]

lemma writeRange_mem (d src : Nat → Nat) {j a b : Nat} (h1 : a ≤ j) (h2 : j < b) :
    writeRange d src a b j = src j := by
  simp only [writeRange, if_pos (And.intro h1 h2)]

lemma applyKeystreamFrom_out (blocks : Nat → Nat → Nat) (d : Nat → Nat)
    {j s t : Nat} (h : ¬(s ≤ j ∧ j < t)) :
    applyKeystreamFrom blocks d s t j = d j := by
  simp only [applyKeystreamFrom, if_neg h]

lemma applyKeystreamFrom_mem (blocks : Nat → Nat → Nat) (d : Nat → Nat)
    {j s t : Nat} (h1 : s ≤ j) (h2 : j < t) :
    applyKeystreamFrom blocks d s t j = d j ^^^ blocks (j / 8) (j % 8) := by
  simp only [applyKeystreamFrom, if_pos (And.intro h1 h2)]

lemma applyKeystreamFrom_congr_at (blocks : Nat → Nat → Nat) {d d' : Nat → Nat}
    (s t j : Nat) (h : d j = d' j) :
    applyKeystreamFrom blocks d s t j = applyKeystreamFrom blocks d' s t j := by
  unfold applyKeystreamFrom
  rw [h]

lemma isAllZero_dataSlice {d : Nat → Nat} {a b : Nat} :
    isAllZero (dataSlice d a b) = true ↔ ∀ j, a ≤ j → j < b → d j = 0 := by
  simp only [isAllZero, dataSlice, List.all_eq_true, List.mem_map, List.mem_range,
    beq_iff_eq, forall_exists_index, and_imp]
  constructor
  · intro h j hj1 hj2
    have := h (d j) (j - a) (by omega) (by rw [Nat.add_sub_cancel' hj1])
    exact this
  · rintro h x i hi rfl
    exact h (a + i) (by omega) (by omega)

/-- The nonce region lies above the XORed prefix, so the keystream
application does not disturb it. -/
lemma tailNonce_applyKeystreamFrom (blocks : Nat → Nat → Nat) (d : Nat → Nat)
    (len obfs fl : Nat) (h : obfs + kObfuscateNonceLength ≤ len) :
    Packet.tailNonce ⟨applyKeystreamFrom blocks d 0 obfs, len, fl⟩ =
      Packet.tailNonce ⟨d, len, fl⟩ := by
  unfold Packet.tailNonce
  apply List.map_congr_left
  intro i hi
  simp only [List.mem_range, kObfuscateNonceLength] at hi h ⊢
  exact applyKeystreamFrom_out _ _ (by omega)

/-! ### The header-conflict mask keeps obfuscated headers non-canonical -/

lemma modifyHashMask_spec (b : Nat → Nat) :
    modifyHashMaskForWireGuardHeaderConflict b 0 &&& 0b11111000 ≠ 0 ∨
    modifyHashMaskForWireGuardHeaderConflict b 1 &&& 0b11111110 ≠ 0 := by
  by_cases h : b 0 &&& 0b11111000 = 0 ∧ b 1 &&& 0b11111110 = 0
  · left
    have he : modifyHashMaskForWireGuardHeaderConflict b 0 = b 0 ||| 0b11010111 := by
      unfold modifyHashMaskForWireGuardHeaderConflict
      rw [if_pos h]
      simp
    rw [he]
    intro hz
    have ht : ((b 0 ||| 0b11010111) &&& 0b11111000).testBit 4 = true := by
      rw [Nat.testBit_and, Nat.testBit_or]
      have h1 : Nat.testBit 0b11010111 4 = true := by decide
      have h2 : Nat.testBit 0b11111000 4 = true := by decide
      simp [h1, h2]
    rw [hz] at ht
    simp [Nat.zero_testBit] at ht
  · have he : modifyHashMaskForWireGuardHeaderConflict b = b := by
      unfold modifyHashMaskForWireGuardHeaderConflict
      rw [if_neg h]
    rw [he]
    exact not_and_or.mp h

lemma keystreamBlocks_zero_mask (xxh : List Nat → List Nat → Nat → Nat → Nat)
    (nonce key : List Nat) :
    keystreamBlocks xxh nonce key 0 0 &&& 0b11111000 ≠ 0 ∨
    keystreamBlocks xxh nonce key 0 1 &&& 0b11111110 ≠ 0 := by
  unfold keystreamBlocks
  simpa using modifyHashMask_spec (xxh nonce key 0)

lemma and248_eq_zero {a : Nat} (h : a ≤ 4) : a &&& 0b11111000 = 0 := by
  interval_cases a <;> decide

lemma xorHeaderNotCanonical {a b k0 k1 x2 x3 : Nat}
    (hm : k0 &&& 0b11111000 ≠ 0 ∨ k1 &&& 0b11111110 ≠ 0)
    (ha4 : a ≤ 4) (hb : b = 0 ∨ b = 1) :
    ¬(1 ≤ a ^^^ k0 ∧ a ^^^ k0 ≤ 4 ∧ b ^^^ k1 = 0 ∧ x2 = 0 ∧ x3 = 0) := by
  rintro ⟨-, h4, h1, -, -⟩
  rcases hm with hm | hm
  · apply hm
    have : (a ^^^ k0) &&& 0b11111000 = 0 := and248_eq_zero h4
    rwa [Nat.and_xor_distrib_right, and248_eq_zero ha4, Nat.zero_xor] at this
  · apply hm
    have hk : k1 = b := (Nat.xor_eq_zero.mp h1).symm
    rcases hb with rfl | rfl <;> simp [hk]

/-! ### Branch shapes of the two transforms -/

lemma Obfuscate_shape_init_marker (xxh : List Nat → List Nat → Nat → Nat → Nat)
    (o : WireGuardObfuscator) (randInt : Nat) (randBytes : Nat → Nat) (p : Packet)
    (ho : o.enabled = true) (hfl : ¬ p.flags &&& PacketFlagObfuscateBeforeSend = 0)
    (hmt : p.MessageType = MessageInitiationType)
    (hz : isAllZero (dataSlice p.data kMessageInitiationTypeMAC2Offset MessageInitiationSize) = true) :
    o.Obfuscate xxh randInt randBytes p =
      obfsXorEncode xxh o.userKeyHash
        (writeRange (setByte p.data 1 0x01) randBytes kMessageInitiationTypeMAC2Offset
          (MessageInitiationSize + kObfuscateNonceLength + randInt % kObfuscateRandomSuffixMaxLength))
        (MessageInitiationSize + kObfuscateNonceLength + randInt % kObfuscateRandomSuffixMaxLength)
        kMessageInitiationTypeMAC2Offset p.flags := by
  simp [WireGuardObfuscator.Obfuscate, ho, hfl, hmt, hz, MessageInitiationType,
    MessageResponseType, MessageCookieReplyType, MessageTransportType]

lemma Obfuscate_shape_init_plain (xxh : List Nat → List Nat → Nat → Nat → Nat)
    (o : WireGuardObfuscator) (randInt : Nat) (randBytes : Nat → Nat) (p : Packet)
    (ho : o.enabled = true) (hfl : ¬ p.flags &&& PacketFlagObfuscateBeforeSend = 0)
    (hmt : p.MessageType = MessageInitiationType)
    (hz : ¬ isAllZero (dataSlice p.data kMessageInitiationTypeMAC2Offset MessageInitiationSize) = true) :
    o.Obfuscate xxh randInt randBytes p =
      obfsXorEncode xxh o.userKeyHash
        (writeRange p.data randBytes MessageInitiationSize
          (MessageInitiationSize + kObfuscateNonceLength + randInt % kObfuscateRandomSuffixMaxLength))
        (MessageInitiationSize + kObfuscateNonceLength + randInt % kObfuscateRandomSuffixMaxLength)
        MessageInitiationSize p.flags := by
  simp [WireGuardObfuscator.Obfuscate, ho, hfl, hmt, hz, MessageInitiationType,
    MessageResponseType, MessageCookieReplyType, MessageTransportType]
lemma Obfuscate_shape_resp_marker (xxh : List Nat → List Nat → Nat → Nat → Nat)
    (o : WireGuardObfuscator) (randInt : Nat) (randBytes : Nat → Nat) (p : Packet)
    (ho : o.enabled = true) (hfl : ¬ p.flags &&& PacketFlagObfuscateBeforeSend = 0)
    (hmt : p.MessageType = MessageResponseType)
    (hz : isAllZero (dataSlice p.data kMessageResponseTypeMAC2Offset MessageResponseSize) = true) :
    o.Obfuscate xxh randInt randBytes p =
      obfsXorEncode xxh o.userKeyHash
        (writeRange (setByte p.data 1 0x01) randBytes kMessageResponseTypeMAC2Offset
          (MessageResponseSize + kObfuscateNonceLength + randInt % kObfuscateRandomSuffixMaxLength))
        (MessageResponseSize + kObfuscateNonceLength + randInt % kObfuscateRandomSuffixMaxLength)
        kMessageResponseTypeMAC2Offset p.flags := by
  simp [WireGuardObfuscator.Obfuscate, ho, hfl, hmt, hz, MessageInitiationType,
    MessageResponseType, MessageCookieReplyType, MessageTransportType]

lemma Obfuscate_shape_resp_plain (xxh : List Nat → List Nat → Nat → Nat → Nat)
    (o : WireGuardObfuscator) (randInt : Nat) (randBytes : Nat → Nat) (p : Packet)
    (ho : o.enabled = true) (hfl : ¬ p.flags &&& PacketFlagObfuscateBeforeSend = 0)
    (hmt : p.MessageType = MessageResponseType)
    (hz : ¬ isAllZero (dataSlice p.data kMessageResponseTypeMAC2Offset MessageResponseSize) = true) :
    o.Obfuscate xxh randInt randBytes p =
      obfsXorEncode xxh o.userKeyHash
        (writeRange p.data randBytes MessageResponseSize
          (MessageResponseSize + kObfuscateNonceLength + randInt % kObfuscateRandomSuffixMaxLength))
        (MessageResponseSize + kObfuscateNonceLength + randInt % kObfuscateRandomSuffixMaxLength)
        MessageResponseSize p.flags := by
  simp [WireGuardObfuscator.Obfuscate, ho, hfl, hmt, hz, MessageInitiationType,
    MessageResponseType, MessageCookieReplyType, MessageTransportType]

lemma Obfuscate_shape_cookie (xxh : List Nat → List Nat → Nat → Nat → Nat)
    (o : WireGuardObfuscator) (randInt : Nat) (randBytes : Nat → Nat) (p : Packet)
    (ho : o.enabled = true) (hfl : ¬ p.flags &&& PacketFlagObfuscateBeforeSend = 0)
    (hmt : p.MessageType = MessageCookieReplyType) :
    o.Obfuscate xxh randInt randBytes p =
      obfsXorEncode xxh o.userKeyHash
        (writeRange p.data randBytes MessageCookieReplySize
          (MessageCookieReplySize + kObfuscateNonceLength + randInt % kObfuscateRandomSuffixMaxLength))
        (MessageCookieReplySize + kObfuscateNonceLength + randInt % kObfuscateRandomSuffixMaxLength)
        MessageCookieReplySize p.flags := by
  simp [WireGuardObfuscator.Obfuscate, ho, hfl, hmt, MessageInitiationType,
    MessageResponseType, MessageCookieReplyType, MessageTransportType]

lemma Obfuscate_shape_transport_short (xxh : List Nat → List Nat → Nat → Nat → Nat)
    (o : WireGuardObfuscator) (randInt : Nat) (randBytes : Nat → Nat) (p : Packet)
    (ho : o.enabled = true) (hfl : ¬ p.flags &&& PacketFlagObfuscateBeforeSend = 0)
    (hmt : p.MessageType = MessageTransportType)
    (hsh : p.length < kObfuscateSuffixAsNonceMinLength) :
    o.Obfuscate xxh randInt randBytes p =
      obfsXorEncode xxh o.userKeyHash
        (writeRange (setByte p.data 1 0x01) randBytes p.length (p.length + kObfuscateNonceLength))
        (p.length + kObfuscateNonceLength) MessageTransportHeaderSize p.flags := by
  simp [WireGuardObfuscator.Obfuscate, ho, hfl, hmt, hsh, MessageInitiationType,
    MessageResponseType, MessageCookieReplyType, MessageTransportType]

lemma Obfuscate_shape_transport_long (xxh : List Nat → List Nat → Nat → Nat → Nat)
    (o : WireGuardObfuscator) (randInt : Nat) (randBytes : Nat → Nat) (p : Packet)
    (ho : o.enabled = true) (hfl : ¬ p.flags &&& PacketFlagObfuscateBeforeSend = 0)
    (hmt : p.MessageType = MessageTransportType)
    (hsh : ¬ p.length < kObfuscateSuffixAsNonceMinLength) :
    o.Obfuscate xxh randInt randBytes p =
      obfsXorEncode xxh o.userKeyHash p.data p.length MessageTransportHeaderSize p.flags := by
  simp [WireGuardObfuscator.Obfuscate, ho, hfl, hmt, hsh, MessageInitiationType,
    MessageResponseType, MessageCookieReplyType, MessageTransportType]

lemma Deobfuscate_enter (xxh : List Nat → List Nat → Nat → Nat → Nat)
    (o : WireGuardObfuscator) (p : Packet)
    (ho : o.enabled = true) (hlen : ¬ p.length < MinMessageSize)
    (hnc : ¬(1 ≤ p.data 0 ∧ p.data 0 ≤ 4 ∧ p.data 1 = 0 ∧ p.data 2 = 0 ∧ p.data 3 = 0)) :
    o.Deobfuscate xxh p = deobfsDecode xxh o.userKeyHash (Packet.tailNonce p) p := by
  simp only [WireGuardObfuscator.Deobfuscate, ho, hlen, hnc, Bool.not_true,
    Bool.false_eq_true, if_false, if_true]
lemma deobfsDecode_shape_init_marker (xxh : List Nat → List Nat → Nat → Nat → Nat)
    (key nonce : List Nat) (p : Packet) (h4 : ¬ p.length < 4)
    (h0 : applyKeystreamFrom (keystreamBlocks xxh nonce key) p.data 0 kObfuscateXORKeyLength 0 =
      MessageInitiationType)
    (h1 : applyKeystreamFrom (keystreamBlocks xxh nonce key) p.data 0 kObfuscateXORKeyLength 1 = 0x01) :
    deobfsDecode xxh key nonce p =
      deobfsFinish (keystreamBlocks xxh nonce key)
        (writeRange
          (setByte (applyKeystreamFrom (keystreamBlocks xxh nonce key) p.data 0 kObfuscateXORKeyLength) 1 0)
          (fun _ => 0) kMessageInitiationTypeMAC2Offset MessageInitiationSize)
        MessageInitiationSize kMessageInitiationTypeMAC2Offset p.flags := by
  simp [deobfsDecode, Packet.MessageType, h4, h0, h1, MessageInitiationType]

lemma deobfsDecode_shape_init_plain (xxh : List Nat → List Nat → Nat → Nat → Nat)
    (key nonce : List Nat) (p : Packet) (h4 : ¬ p.length < 4)
    (h0 : applyKeystreamFrom (keystreamBlocks xxh nonce key) p.data 0 kObfuscateXORKeyLength 0 =
      MessageInitiationType)
    (h1 : ¬ applyKeystreamFrom (keystreamBlocks xxh nonce key) p.data 0 kObfuscateXORKeyLength 1 = 0x01) :
    deobfsDecode xxh key nonce p =
      deobfsFinish (keystreamBlocks xxh nonce key)
        (applyKeystreamFrom (keystreamBlocks xxh nonce key) p.data 0 kObfuscateXORKeyLength)
        MessageInitiationSize MessageInitiationSize p.flags := by
  simp [deobfsDecode, Packet.MessageType, h4, h0, h1, MessageInitiationType]

lemma deobfsDecode_shape_resp_marker (xxh : List Nat → List Nat → Nat → Nat → Nat)
    (key nonce : List Nat) (p : Packet) (h4 : ¬ p.length < 4)
    (h0 : applyKeystreamFrom (keystreamBlocks xxh nonce key) p.data 0 kObfuscateXORKeyLength 0 =
      MessageResponseType)
    (h1 : applyKeystreamFrom (keystreamBlocks xxh nonce key) p.data 0 kObfuscateXORKeyLength 1 = 0x01) :
    deobfsDecode xxh key nonce p =
      deobfsFinish (keystreamBlocks xxh nonce key)
        (writeRange
          (setByte (applyKeystreamFrom (keystreamBlocks xxh nonce key) p.data 0 kObfuscateXORKeyLength) 1 0)
          (fun _ => 0) kMessageResponseTypeMAC2Offset MessageResponseSize)
        MessageResponseSize kMessageResponseTypeMAC2Offset p.flags := by
  simp [deobfsDecode, Packet.MessageType, h4, h0, h1, MessageInitiationType, MessageResponseType]

lemma deobfsDecode_shape_resp_plain (xxh : List Nat → List Nat → Nat → Nat → Nat)
    (key nonce : List Nat) (p : Packet) (h4 : ¬ p.length < 4)
    (h0 : applyKeystreamFrom (keystreamBlocks xxh nonce key) p.data 0 kObfuscateXORKeyLength 0 =
      MessageResponseType)
    (h1 : ¬ applyKeystreamFrom (keystreamBlocks xxh nonce key) p.data 0 kObfuscateXORKeyLength 1 = 0x01) :
    deobfsDecode xxh key nonce p =
      deobfsFinish (keystreamBlocks xxh nonce key)
        (applyKeystreamFrom (keystreamBlocks xxh nonce key) p.data 0 kObfuscateXORKeyLength)
        MessageResponseSize MessageResponseSize p.flags := by
  simp [deobfsDecode, Packet.MessageType, h4, h0, h1, MessageInitiationType, MessageResponseType]

lemma deobfsDecode_shape_cookie (xxh : List Nat → List Nat → Nat → Nat → Nat)
    (key nonce : List Nat) (p : Packet) (h4 : ¬ p.length < 4)
    (h0 : applyKeystreamFrom (keystreamBlocks xxh nonce key) p.data 0 kObfuscateXORKeyLength 0 =
      MessageCookieReplyType) :
    deobfsDecode xxh key nonce p =
      deobfsFinish (keystreamBlocks xxh nonce key)
        (applyKeystreamFrom (keystreamBlocks xxh nonce key) p.data 0 kObfuscateXORKeyLength)
        MessageCookieReplySize MessageCookieReplySize p.flags := by
  simp [deobfsDecode, Packet.MessageType, h4, h0, MessageInitiationType, MessageResponseType,
    MessageCookieReplyType]

lemma deobfsDecode_shape_transport_marker (xxh : List Nat → List Nat → Nat → Nat → Nat)
    (key nonce : List Nat) (p : Packet) (h4 : ¬ p.length < 4)
    (h0 : applyKeystreamFrom (keystreamBlocks xxh nonce key) p.data 0 kObfuscateXORKeyLength 0 =
      MessageTransportType)
    (h1 : applyKeystreamFrom (keystreamBlocks xxh nonce key) p.data 0 kObfuscateXORKeyLength 1 = 0x01) :
    deobfsDecode xxh key nonce p =
      deobfsFinish (keystreamBlocks xxh nonce key)
        (setByte (applyKeystreamFrom (keystreamBlocks xxh nonce key) p.data 0 kObfuscateXORKeyLength) 1 0)
        (p.length - kObfuscateNonceLength) MessageTransportHeaderSize p.flags := by
  simp [deobfsDecode, Packet.MessageType, h4, h0, h1, MessageInitiationType, MessageResponseType,
    MessageCookieReplyType, MessageTransportType]

lemma deobfsDecode_shape_transport_plain (xxh : List Nat → List Nat → Nat → Nat → Nat)
    (key nonce : List Nat) (p : Packet) (h4 : ¬ p.length < 4)
    (h0 : applyKeystreamFrom (keystreamBlocks xxh nonce key) p.data 0 kObfuscateXORKeyLength 0 =
      MessageTransportType)
    (h1 : ¬ applyKeystreamFrom (keystreamBlocks xxh nonce key) p.data 0 kObfuscateXORKeyLength 1 = 0x01) :
    deobfsDecode xxh key nonce p =
      deobfsFinish (keystreamBlocks xxh nonce key)
        (applyKeystreamFrom (keystreamBlocks xxh nonce key) p.data 0 kObfuscateXORKeyLength)
        p.length MessageTransportHeaderSize p.flags := by
  simp [deobfsDecode, Packet.MessageType, h4, h0, h1, MessageInitiationType, MessageResponseType,
    MessageCookieReplyType, MessageTransportType]

lemma deobfsDecode_shape_default (xxh : List Nat → List Nat → Nat → Nat → Nat)
    (key nonce : List Nat) (p : Packet) (h4 : ¬ p.length < 4)
    (h0 : ¬ (applyKeystreamFrom (keystreamBlocks xxh nonce key) p.data 0 kObfuscateXORKeyLength 0 = 1 ∨
      applyKeystreamFrom (keystreamBlocks xxh nonce key) p.data 0 kObfuscateXORKeyLength 0 = 2 ∨
      applyKeystreamFrom (keystreamBlocks xxh nonce key) p.data 0 kObfuscateXORKeyLength 0 = 3 ∨
      applyKeystreamFrom (keystreamBlocks xxh nonce key) p.data 0 kObfuscateXORKeyLength 0 = 4)) :
    deobfsDecode xxh key nonce p =
      { p with data := applyKeystreamFrom (keystreamBlocks xxh nonce key) p.data 0 kObfuscateXORKeyLength } := by
  push_neg at h0
  obtain ⟨hn1, hn2, hn3, hn4⟩ := h0
  simp [deobfsDecode, Packet.MessageType, h4, hn1, hn2, hn3, hn4, MessageInitiationType,
    MessageResponseType, MessageCookieReplyType, MessageTransportType]
/-! ### Entering the decode path from an encoded packet -/

lemma decode_first8_eq (blocks : Nat → Nat → Nat) (d : Nat → Nat) (obfs : Nat)
    (h8 : 8 ≤ obfs) (j : Nat) :
    applyKeystreamFrom blocks (applyKeystreamFrom blocks d 0 obfs) 0 8 j =
      if j < 8 then d j else applyKeystreamFrom blocks d 0 obfs j := by
  by_cases hj : j < 8
  · rw [if_pos hj, applyKeystreamFrom_mem _ _ (Nat.zero_le j) hj,
      applyKeystreamFrom_mem _ _ (Nat.zero_le j) (by omega), Nat.xor_cancel_right]
  · rw [if_neg hj]
    exact applyKeystreamFrom_out _ _ (by omega)

lemma decode_rest_cancel (blocks : Nat → Nat → Nat) (d dmid : Nat → Nat) (obfs obfs2 i : Nat)
    (h8 : 8 ≤ i) (hi : i < obfs2) (hle : obfs2 ≤ obfs)
    (hmid : dmid i = applyKeystreamFrom blocks d 0 obfs i) :
    applyKeystreamFrom blocks dmid 8 obfs2 i = d i := by
  rw [applyKeystreamFrom_mem _ _ h8 hi, hmid,
    applyKeystreamFrom_mem _ _ (Nat.zero_le i) (by omega), Nat.xor_cancel_right]

/-- An encoded packet never passes the canonical-header check of
`Deobfuscate` (the mask guarantee), so deobfuscation proceeds into the
decode path with the nonce the encoder used. -/
lemma Deobfuscate_obfsXorEncode_enter (xxh : List Nat → List Nat → Nat → Nat → Nat)
    (o : WireGuardObfuscator) (d : Nat → Nat) (len obfs fl : Nat)
    (ho : o.enabled = true) (h16 : 16 ≤ obfs)
    (hup : obfs + kObfuscateNonceLength ≤ len) (h32 : ¬ len < MinMessageSize)
    (hd0' : d 0 ≤ 4) (hd1 : d 1 = 0 ∨ d 1 = 1) :
    o.Deobfuscate xxh (obfsXorEncode xxh o.userKeyHash d len obfs fl) =
      deobfsDecode xxh o.userKeyHash (Packet.tailNonce ⟨d, len, fl⟩)
        (obfsXorEncode xxh o.userKeyHash d len obfs fl) := by
  have e0 : (obfsXorEncode xxh o.userKeyHash d len obfs fl).data 0 =
      d 0 ^^^ keystreamBlocks xxh (Packet.tailNonce ⟨d, len, fl⟩) o.userKeyHash 0 0 := by
    show applyKeystreamFrom
      (keystreamBlocks xxh (Packet.tailNonce ⟨d, len, fl⟩) o.userKeyHash) d 0 obfs 0 = _
    rw [applyKeystreamFrom_mem _ _ (Nat.zero_le 0) (by omega)]
  have e1 : (obfsXorEncode xxh o.userKeyHash d len obfs fl).data 1 =
      d 1 ^^^ keystreamBlocks xxh (Packet.tailNonce ⟨d, len, fl⟩) o.userKeyHash 0 1 := by
    show applyKeystreamFrom
      (keystreamBlocks xxh (Packet.tailNonce ⟨d, len, fl⟩) o.userKeyHash) d 0 obfs 1 = _
    rw [applyKeystreamFrom_mem _ _ (Nat.zero_le 1) (by omega)]
  have hnc : ¬(1 ≤ (obfsXorEncode xxh o.userKeyHash d len obfs fl).data 0 ∧
      (obfsXorEncode xxh o.userKeyHash d len obfs fl).data 0 ≤ 4 ∧
      (obfsXorEncode xxh o.userKeyHash d len obfs fl).data 1 = 0 ∧
      (obfsXorEncode xxh o.userKeyHash d len obfs fl).data 2 = 0 ∧
      (obfsXorEncode xxh o.userKeyHash d len obfs fl).data 3 = 0) := by
    rw [e0, e1]
    exact xorHeaderNotCanonical
      (keystreamBlocks_zero_mask xxh (Packet.tailNonce ⟨d, len, fl⟩) o.userKeyHash) hd0' hd1
  rw [Deobfuscate_enter xxh o _ ho h32 hnc]
  have hn : Packet.tailNonce (obfsXorEncode xxh o.userKeyHash d len obfs fl) =
      Packet.tailNonce ⟨d, len, fl⟩ := by
    show Packet.tailNonce ⟨applyKeystreamFrom
      (keystreamBlocks xxh (Packet.tailNonce ⟨d, len, fl⟩) o.userKeyHash) d 0 obfs, len, fl⟩ = _
    exact tailNonce_applyKeystreamFrom _ d len obfs fl hup
  rw [hn]
/-! ### Round trip, Initiation with all-zero MAC2 -/

lemma roundtrip_init_marker (xxh : List Nat → List Nat → Nat → Nat → Nat)
    (o : WireGuardObfuscator) (rI : Nat) (rB : Nat → Nat) (p : Packet)
    (ho : o.enabled = true) (hfl : ¬ p.flags &&& PacketFlagObfuscateBeforeSend = 0)
    (h0 : p.data 0 = 1) (h1 : p.data 1 = 0)
    (hlen : p.length = 148) (hz : ∀ j, 132 ≤ j → j < 148 → p.data j = 0) :
    (o.Deobfuscate xxh (o.Obfuscate xxh rI rB p)).length = p.length ∧
    ∀ i < p.length, (o.Deobfuscate xxh (o.Obfuscate xxh rI rB p)).data i = p.data i := by
  have hmt : p.MessageType = MessageInitiationType := by
    unfold Packet.MessageType MessageInitiationType
    rw [if_neg (by omega), h0]
  have hzz : isAllZero (dataSlice p.data kMessageInitiationTypeMAC2Offset MessageInitiationSize) = true := by
    rw [isAllZero_dataSlice]
    intro j hj1 hj2
    refine hz j ?_ ?_
    · simpa [kMessageInitiationTypeMAC2Offset] using hj1
    · simpa [MessageInitiationSize] using hj2
  rw [Obfuscate_shape_init_marker xxh o rI rB p ho hfl hmt hzz]
  simp only [MessageInitiationSize, kMessageInitiationTypeMAC2Offset, kObfuscateNonceLength,
    kObfuscateRandomSuffixMaxLength]
  set LL := 148 + 16 + rI % 384 with hLL
  set d2 := writeRange (setByte p.data 1 0x01) rB 132 LL with hd2
  have hd2_0 : d2 0 = 1 := by
    rw [hd2, writeRange_out _ _ (by omega), setByte_ne _ _ (by omega), h0]
  have hd2_1 : d2 1 = 1 := by
    rw [hd2, writeRange_out _ _ (by omega), setByte_at]
  have hd2_lt : ∀ j, j < 132 → j ≠ 1 → d2 j = p.data j := by
    intro j hj hj1
    rw [hd2, writeRange_out _ _ (by omega), setByte_ne _ _ hj1]
  rw [Deobfuscate_obfsXorEncode_enter xxh o d2 LL 132 p.flags ho (by omega)
    (by simp [kObfuscateNonceLength]; omega) (by simp [MinMessageSize]; omega)
    (by omega) (Or.inr hd2_1)]
  set N := Packet.tailNonce ⟨d2, LL, p.flags⟩ with hN
  set bl := keystreamBlocks xxh N o.userKeyHash with hbl
  have hq0 : applyKeystreamFrom bl (obfsXorEncode xxh o.userKeyHash d2 LL 132 p.flags).data 0
      kObfuscateXORKeyLength 0 = MessageInitiationType := by
    show applyKeystreamFrom bl (applyKeystreamFrom bl d2 0 132) 0 kObfuscateXORKeyLength 0 =
      MessageInitiationType
    simp only [kObfuscateXORKeyLength]
    rw [decode_first8_eq bl d2 132 (by omega) 0, if_pos (by omega), hd2_0]
    rfl
  have hq1 : applyKeystreamFrom bl (obfsXorEncode xxh o.userKeyHash d2 LL 132 p.flags).data 0
      kObfuscateXORKeyLength 1 = 0x01 := by
    show applyKeystreamFrom bl (applyKeystreamFrom bl d2 0 132) 0 kObfuscateXORKeyLength 1 = 0x01
    simp only [kObfuscateXORKeyLength]
    rw [decode_first8_eq bl d2 132 (by omega) 1, if_pos (by omega), hd2_1]
  rw [deobfsDecode_shape_init_marker xxh o.userKeyHash N
    (obfsXorEncode xxh o.userKeyHash d2 LL 132 p.flags)
    (by show ¬ LL < 4; omega) hq0 hq1]
  simp only [deobfsFinish, obfsXorEncode, MessageInitiationSize, kMessageInitiationTypeMAC2Offset,
    kObfuscateXORKeyLength]
  constructor
  · rw [hlen]
  intro i hi
  rw [hlen] at hi
  by_cases hc1 : 132 ≤ i
  · rw [applyKeystreamFrom_out _ _ (by omega), writeRange_mem _ _ (by omega) (by omega)]
    exact (hz i hc1 hi).symm
  push_neg at hc1
  by_cases hc2 : 8 ≤ i
  · refine decode_rest_cancel bl d2 _ 132 132 i hc2 (by omega) (le_refl 132) ?_ |>.trans
      (hd2_lt i (by omega) (by omega))
    rw [writeRange_out _ _ (by omega), setByte_ne _ _ (by omega),
      decode_first8_eq bl d2 132 (by omega) i, if_neg (by omega)]
  push_neg at hc2
  rw [applyKeystreamFrom_out _ _ (by omega), writeRange_out _ _ (by omega)]
  by_cases hc3 : i = 1
  · rw [hc3, setByte_at, h1]
  · rw [setByte_ne _ _ hc3, decode_first8_eq bl d2 132 (by omega) i, if_pos (by omega)]
    exact hd2_lt i (by omega) hc3
/-! ### Round trip, Initiation with nonzero MAC2 -/

lemma roundtrip_init_plain (xxh : List Nat → List Nat → Nat → Nat → Nat)
    (o : WireGuardObfuscator) (rI : Nat) (rB : Nat → Nat) (p : Packet)
    (ho : o.enabled = true) (hfl : ¬ p.flags &&& PacketFlagObfuscateBeforeSend = 0)
    (h0 : p.data 0 = 1) (h1 : p.data 1 = 0)
    (hlen : p.length = 148)
    (hnz : ¬ isAllZero (dataSlice p.data kMessageInitiationTypeMAC2Offset MessageInitiationSize) = true) :
    (o.Deobfuscate xxh (o.Obfuscate xxh rI rB p)).length = p.length ∧
    ∀ i < p.length, (o.Deobfuscate xxh (o.Obfuscate xxh rI rB p)).data i = p.data i := by
  have hmt : p.MessageType = MessageInitiationType := by
    unfold Packet.MessageType MessageInitiationType
    rw [if_neg (by omega), h0]
  rw [Obfuscate_shape_init_plain xxh o rI rB p ho hfl hmt hnz]
  simp only [MessageInitiationSize, kObfuscateNonceLength, kObfuscateRandomSuffixMaxLength]
  set LL := 148 + 16 + rI % 384 with hLL
  set d2 := writeRange p.data rB 148 LL with hd2
  have hd2_lt : ∀ j, j < 148 → d2 j = p.data j := by
    intro j hj
    rw [hd2, writeRange_out _ _ (by omega)]
  have hd2_0 : d2 0 = 1 := by rw [hd2_lt 0 (by omega), h0]
  have hd2_1 : d2 1 = 0 := by rw [hd2_lt 1 (by omega), h1]
  rw [Deobfuscate_obfsXorEncode_enter xxh o d2 LL 148 p.flags ho (by omega)
    (by simp [kObfuscateNonceLength]; omega) (by simp [MinMessageSize]; omega)
    (by omega) (Or.inl hd2_1)]
  set N := Packet.tailNonce ⟨d2, LL, p.flags⟩ with hN
  set bl := keystreamBlocks xxh N o.userKeyHash with hbl
  have hq0 : applyKeystreamFrom bl (obfsXorEncode xxh o.userKeyHash d2 LL 148 p.flags).data 0
      kObfuscateXORKeyLength 0 = MessageInitiationType := by
    show applyKeystreamFrom bl (applyKeystreamFrom bl d2 0 148) 0 kObfuscateXORKeyLength 0 =
      MessageInitiationType
    simp only [kObfuscateXORKeyLength]
    rw [decode_first8_eq bl d2 148 (by omega) 0, if_pos (by omega), hd2_0]
    rfl
  have hq1 : ¬ applyKeystreamFrom bl (obfsXorEncode xxh o.userKeyHash d2 LL 148 p.flags).data 0
      kObfuscateXORKeyLength 1 = 0x01 := by
    show ¬ applyKeystreamFrom bl (applyKeystreamFrom bl d2 0 148) 0 kObfuscateXORKeyLength 1 = 0x01
    simp only [kObfuscateXORKeyLength]
    rw [decode_first8_eq bl d2 148 (by omega) 1, if_pos (by omega), hd2_1]
    omega
  rw [deobfsDecode_shape_init_plain xxh o.userKeyHash N
    (obfsXorEncode xxh o.userKeyHash d2 LL 148 p.flags)
    (by show ¬ LL < 4; omega) hq0 hq1]
  simp only [deobfsFinish, obfsXorEncode, MessageInitiationSize, kObfuscateXORKeyLength]
  constructor
  · rw [hlen]
  intro i hi
  rw [hlen] at hi
  by_cases hc2 : 8 ≤ i
  · refine decode_rest_cancel bl d2 _ 148 148 i hc2 (by omega) (le_refl 148) ?_ |>.trans
      (hd2_lt i (by omega))
    rw [decode_first8_eq bl d2 148 (by omega) i, if_neg (by omega)]
  push_neg at hc2
  rw [applyKeystreamFrom_out _ _ (by omega),
    decode_first8_eq bl d2 148 (by omega) i, if_pos (by omega)]
  exact hd2_lt i (by omega)

/-! ### Round trip, Response -/

lemma roundtrip_resp_marker (xxh : List Nat → List Nat → Nat → Nat → Nat)
    (o : WireGuardObfuscator) (rI : Nat) (rB : Nat → Nat) (p : Packet)
    (ho : o.enabled = true) (hfl : ¬ p.flags &&& PacketFlagObfuscateBeforeSend = 0)
    (h0 : p.data 0 = 2) (h1 : p.data 1 = 0)
    (hlen : p.length = 92) (hz : ∀ j, 76 ≤ j → j < 92 → p.data j = 0) :
    (o.Deobfuscate xxh (o.Obfuscate xxh rI rB p)).length = p.length ∧
    ∀ i < p.length, (o.Deobfuscate xxh (o.Obfuscate xxh rI rB p)).data i = p.data i := by
  have hmt : p.MessageType = MessageResponseType := by
    unfold Packet.MessageType MessageResponseType
    rw [if_neg (by omega), h0]
  have hzz : isAllZero (dataSlice p.data kMessageResponseTypeMAC2Offset MessageResponseSize) = true := by
    rw [isAllZero_dataSlice]
    intro j hj1 hj2
    refine hz j ?_ ?_
    · simpa [kMessageResponseTypeMAC2Offset] using hj1
    · simpa [MessageResponseSize] using hj2
  rw [Obfuscate_shape_resp_marker xxh o rI rB p ho hfl hmt hzz]
  simp only [MessageResponseSize, kMessageResponseTypeMAC2Offset, kObfuscateNonceLength,
    kObfuscateRandomSuffixMaxLength]
  set LL := 92 + 16 + rI % 384 with hLL
  set d2 := writeRange (setByte p.data 1 0x01) rB 76 LL with hd2
  have hd2_0 : d2 0 = 2 := by
    rw [hd2, writeRange_out _ _ (by omega), setByte_ne _ _ (by omega), h0]
  have hd2_1 : d2 1 = 1 := by
    rw [hd2, writeRange_out _ _ (by omega), setByte_at]
  have hd2_lt : ∀ j, j < 76 → j ≠ 1 → d2 j = p.data j := by
    intro j hj hj1
    rw [hd2, writeRange_out _ _ (by omega), setByte_ne _ _ hj1]
  rw [Deobfuscate_obfsXorEncode_enter xxh o d2 LL 76 p.flags ho (by omega)
    (by simp [kObfuscateNonceLength]; omega) (by simp [MinMessageSize]; omega)
    (by omega) (Or.inr hd2_1)]
  set N := Packet.tailNonce ⟨d2, LL, p.flags⟩ with hN
  set bl := keystreamBlocks xxh N o.userKeyHash with hbl
  have hq0 : applyKeystreamFrom bl (obfsXorEncode xxh o.userKeyHash d2 LL 76 p.flags).data 0
      kObfuscateXORKeyLength 0 = MessageResponseType := by
    show applyKeystreamFrom bl (applyKeystreamFrom bl d2 0 76) 0 kObfuscateXORKeyLength 0 =
      MessageResponseType
    simp only [kObfuscateXORKeyLength]
    rw [decode_first8_eq bl d2 76 (by omega) 0, if_pos (by omega), hd2_0]
    rfl
  have hq1 : applyKeystreamFrom bl (obfsXorEncode xxh o.userKeyHash d2 LL 76 p.flags).data 0
      kObfuscateXORKeyLength 1 = 0x01 := by
    show applyKeystreamFrom bl (applyKeystreamFrom bl d2 0 76) 0 kObfuscateXORKeyLength 1 = 0x01
    simp only [kObfuscateXORKeyLength]
    rw [decode_first8_eq bl d2 76 (by omega) 1, if_pos (by omega), hd2_1]
  rw [deobfsDecode_shape_resp_marker xxh o.userKeyHash N
    (obfsXorEncode xxh o.userKeyHash d2 LL 76 p.flags)
    (by show ¬ LL < 4; omega) hq0 hq1]
  simp only [deobfsFinish, obfsXorEncode, MessageResponseSize, kMessageResponseTypeMAC2Offset,
    kObfuscateXORKeyLength]
  constructor
  · rw [hlen]
  intro i hi
  rw [hlen] at hi
  by_cases hc1 : 76 ≤ i
  · rw [applyKeystreamFrom_out _ _ (by omega), writeRange_mem _ _ (by omega) (by omega)]
    exact (hz i hc1 hi).symm
  push_neg at hc1
  by_cases hc2 : 8 ≤ i
  · refine decode_rest_cancel bl d2 _ 76 76 i hc2 (by omega) (le_refl 76) ?_ |>.trans
      (hd2_lt i (by omega) (by omega))
    rw [writeRange_out _ _ (by omega), setByte_ne _ _ (by omega),
      decode_first8_eq bl d2 76 (by omega) i, if_neg (by omega)]
  push_neg at hc2
  rw [applyKeystreamFrom_out _ _ (by omega), writeRange_out _ _ (by omega)]
  by_cases hc3 : i = 1
  · rw [hc3, setByte_at, h1]
  · rw [setByte_ne _ _ hc3, decode_first8_eq bl d2 76 (by omega) i, if_pos (by omega)]
    exact hd2_lt i (by omega) hc3

lemma roundtrip_resp_plain (xxh : List Nat → List Nat → Nat → Nat → Nat)
    (o : WireGuardObfuscator) (rI : Nat) (rB : Nat → Nat) (p : Packet)
    (ho : o.enabled = true) (hfl : ¬ p.flags &&& PacketFlagObfuscateBeforeSend = 0)
    (h0 : p.data 0 = 2) (h1 : p.data 1 = 0)
    (hlen : p.length = 92)
    (hnz : ¬ isAllZero (dataSlice p.data kMessageResponseTypeMAC2Offset MessageResponseSize) = true) :
    (o.Deobfuscate xxh (o.Obfuscate xxh rI rB p)).length = p.length ∧
    ∀ i < p.length, (o.Deobfuscate xxh (o.Obfuscate xxh rI rB p)).data i = p.data i := by
  have hmt : p.MessageType = MessageResponseType := by
    unfold Packet.MessageType MessageResponseType
    rw [if_neg (by omega), h0]
  rw [Obfuscate_shape_resp_plain xxh o rI rB p ho hfl hmt hnz]
  simp only [MessageResponseSize, kObfuscateNonceLength, kObfuscateRandomSuffixMaxLength]
  set LL := 92 + 16 + rI % 384 with hLL
  set d2 := writeRange p.data rB 92 LL with hd2
  have hd2_lt : ∀ j, j < 92 → d2 j = p.data j := by
    intro j hj
    rw [hd2, writeRange_out _ _ (by omega)]
  have hd2_0 : d2 0 = 2 := by rw [hd2_lt 0 (by omega), h0]
  have hd2_1 : d2 1 = 0 := by rw [hd2_lt 1 (by omega), h1]
  rw [Deobfuscate_obfsXorEncode_enter xxh o d2 LL 92 p.flags ho (by omega)
    (by simp [kObfuscateNonceLength]; omega) (by simp [MinMessageSize]; omega)
    (by omega) (Or.inl hd2_1)]
  set N := Packet.tailNonce ⟨d2, LL, p.flags⟩ with hN
  set bl := keystreamBlocks xxh N o.userKeyHash with hbl
  have hq0 : applyKeystreamFrom bl (obfsXorEncode xxh o.userKeyHash d2 LL 92 p.flags).data 0
      kObfuscateXORKeyLength 0 = MessageResponseType := by
    show applyKeystreamFrom bl (applyKeystreamFrom bl d2 0 92) 0 kObfuscateXORKeyLength 0 =
      MessageResponseType
    simp only [kObfuscateXORKeyLength]
    rw [decode_first8_eq bl d2 92 (by omega) 0, if_pos (by omega), hd2_0]
    rfl
  have hq1 : ¬ applyKeystreamFrom bl (obfsXorEncode xxh o.userKeyHash d2 LL 92 p.flags).data 0
      kObfuscateXORKeyLength 1 = 0x01 := by
    show ¬ applyKeystreamFrom bl (applyKeystreamFrom bl d2 0 92) 0 kObfuscateXORKeyLength 1 = 0x01
    simp only [kObfuscateXORKeyLength]
    rw [decode_first8_eq bl d2 92 (by omega) 1, if_pos (by omega), hd2_1]
    omega
  rw [deobfsDecode_shape_resp_plain xxh o.userKeyHash N
    (obfsXorEncode xxh o.userKeyHash d2 LL 92 p.flags)
    (by show ¬ LL < 4; omega) hq0 hq1]
  simp only [deobfsFinish, obfsXorEncode, MessageResponseSize, kObfuscateXORKeyLength]
  constructor
  · rw [hlen]
  intro i hi
  rw [hlen] at hi
  by_cases hc2 : 8 ≤ i
  · refine decode_rest_cancel bl d2 _ 92 92 i hc2 (by omega) (le_refl 92) ?_ |>.trans
      (hd2_lt i (by omega))
    rw [decode_first8_eq bl d2 92 (by omega) i, if_neg (by omega)]
  push_neg at hc2
  rw [applyKeystreamFrom_out _ _ (by omega),
    decode_first8_eq bl d2 92 (by omega) i, if_pos (by omega)]
  exact hd2_lt i (by omega)
/-! ### Round trip, CookieReply and Transport -/

lemma roundtrip_cookie (xxh : List Nat → List Nat → Nat → Nat → Nat)
    (o : WireGuardObfuscator) (rI : Nat) (rB : Nat → Nat) (p : Packet)
    (ho : o.enabled = true) (hfl : ¬ p.flags &&& PacketFlagObfuscateBeforeSend = 0)
    (h0 : p.data 0 = 3) (h1 : p.data 1 = 0)
    (hlen : p.length = 64) :
    (o.Deobfuscate xxh (o.Obfuscate xxh rI rB p)).length = p.length ∧
    ∀ i < p.length, (o.Deobfuscate xxh (o.Obfuscate xxh rI rB p)).data i = p.data i := by
  have hmt : p.MessageType = MessageCookieReplyType := by
    unfold Packet.MessageType MessageCookieReplyType
    rw [if_neg (by omega), h0]
  rw [Obfuscate_shape_cookie xxh o rI rB p ho hfl hmt]
  simp only [MessageCookieReplySize, kObfuscateNonceLength, kObfuscateRandomSuffixMaxLength]
  set LL := 64 + 16 + rI % 384 with hLL
  set d2 := writeRange p.data rB 64 LL with hd2
  have hd2_lt : ∀ j, j < 64 → d2 j = p.data j := by
    intro j hj
    rw [hd2, writeRange_out _ _ (by omega)]
  have hd2_0 : d2 0 = 3 := by rw [hd2_lt 0 (by omega), h0]
  have hd2_1 : d2 1 = 0 := by rw [hd2_lt 1 (by omega), h1]
  rw [Deobfuscate_obfsXorEncode_enter xxh o d2 LL 64 p.flags ho (by omega)
    (by simp [kObfuscateNonceLength]; omega) (by simp [MinMessageSize]; omega)
    (by omega) (Or.inl hd2_1)]
  set N := Packet.tailNonce ⟨d2, LL, p.flags⟩ with hN
  set bl := keystreamBlocks xxh N o.userKeyHash with hbl
  have hq0 : applyKeystreamFrom bl (obfsXorEncode xxh o.userKeyHash d2 LL 64 p.flags).data 0
      kObfuscateXORKeyLength 0 = MessageCookieReplyType := by
    show applyKeystreamFrom bl (applyKeystreamFrom bl d2 0 64) 0 kObfuscateXORKeyLength 0 =
      MessageCookieReplyType
    simp only [kObfuscateXORKeyLength]
    rw [decode_first8_eq bl d2 64 (by omega) 0, if_pos (by omega), hd2_0]
    rfl
  rw [deobfsDecode_shape_cookie xxh o.userKeyHash N
    (obfsXorEncode xxh o.userKeyHash d2 LL 64 p.flags)
    (by show ¬ LL < 4; omega) hq0]
  simp only [deobfsFinish, obfsXorEncode, MessageCookieReplySize, kObfuscateXORKeyLength]
  constructor
  · rw [hlen]
  intro i hi
  rw [hlen] at hi
  by_cases hc2 : 8 ≤ i
  · refine decode_rest_cancel bl d2 _ 64 64 i hc2 (by omega) (le_refl 64) ?_ |>.trans
      (hd2_lt i (by omega))
    rw [decode_first8_eq bl d2 64 (by omega) i, if_neg (by omega)]
  push_neg at hc2
  rw [applyKeystreamFrom_out _ _ (by omega),
    decode_first8_eq bl d2 64 (by omega) i, if_pos (by omega)]
  exact hd2_lt i (by omega)

lemma roundtrip_transport_short (xxh : List Nat → List Nat → Nat → Nat → Nat)
    (o : WireGuardObfuscator) (rI : Nat) (rB : Nat → Nat) (p : Packet)
    (ho : o.enabled = true) (hfl : ¬ p.flags &&& PacketFlagObfuscateBeforeSend = 0)
    (h0 : p.data 0 = 4) (h1 : p.data 1 = 0)
    (hlen : 32 ≤ p.length) (hsh : p.length < 256) :
    (o.Deobfuscate xxh (o.Obfuscate xxh rI rB p)).length = p.length ∧
    ∀ i < p.length, (o.Deobfuscate xxh (o.Obfuscate xxh rI rB p)).data i = p.data i := by
  have hmt : p.MessageType = MessageTransportType := by
    unfold Packet.MessageType MessageTransportType
    rw [if_neg (by omega), h0]
  rw [Obfuscate_shape_transport_short xxh o rI rB p ho hfl hmt
    (by simpa [kObfuscateSuffixAsNonceMinLength] using hsh)]
  simp only [MessageTransportHeaderSize, kObfuscateNonceLength]
  set LL := p.length + 16 with hLL
  set d2 := writeRange (setByte p.data 1 0x01) rB p.length LL with hd2
  have hd2_0 : d2 0 = 4 := by
    rw [hd2, writeRange_out _ _ (by omega), setByte_ne _ _ (by omega), h0]
  have hd2_1 : d2 1 = 1 := by
    rw [hd2, writeRange_out _ _ (by omega), setByte_at]
  have hd2_lt : ∀ j, j < p.length → j ≠ 1 → d2 j = p.data j := by
    intro j hj hj1
    rw [hd2, writeRange_out _ _ (by omega), setByte_ne _ _ hj1]
  rw [Deobfuscate_obfsXorEncode_enter xxh o d2 LL 16 p.flags ho (by omega)
    (by simp [kObfuscateNonceLength]; omega) (by simp [MinMessageSize]; omega)
    (by omega) (Or.inr hd2_1)]
  set N := Packet.tailNonce ⟨d2, LL, p.flags⟩ with hN
  set bl := keystreamBlocks xxh N o.userKeyHash with hbl
  have hq0 : applyKeystreamFrom bl (obfsXorEncode xxh o.userKeyHash d2 LL 16 p.flags).data 0
      kObfuscateXORKeyLength 0 = MessageTransportType := by
    show applyKeystreamFrom bl (applyKeystreamFrom bl d2 0 16) 0 kObfuscateXORKeyLength 0 =
      MessageTransportType
    simp only [kObfuscateXORKeyLength]
    rw [decode_first8_eq bl d2 16 (by omega) 0, if_pos (by omega), hd2_0]
    rfl
  have hq1 : applyKeystreamFrom bl (obfsXorEncode xxh o.userKeyHash d2 LL 16 p.flags).data 0
      kObfuscateXORKeyLength 1 = 0x01 := by
    show applyKeystreamFrom bl (applyKeystreamFrom bl d2 0 16) 0 kObfuscateXORKeyLength 1 = 0x01
    simp only [kObfuscateXORKeyLength]
    rw [decode_first8_eq bl d2 16 (by omega) 1, if_pos (by omega), hd2_1]
  rw [deobfsDecode_shape_transport_marker xxh o.userKeyHash N
    (obfsXorEncode xxh o.userKeyHash d2 LL 16 p.flags)
    (by show ¬ LL < 4; omega) hq0 hq1]
  simp only [deobfsFinish, obfsXorEncode, MessageTransportHeaderSize, kObfuscateNonceLength,
    kObfuscateXORKeyLength]
  constructor
  · show LL - 16 = p.length
    omega
  intro i hi
  by_cases hc1 : 16 ≤ i
  · rw [applyKeystreamFrom_out _ _ (by omega), setByte_ne _ _ (by omega),
      decode_first8_eq bl d2 16 (by omega) i, if_neg (by omega),
      applyKeystreamFrom_out _ _ (by omega)]
    exact hd2_lt i hi (by omega)
  push_neg at hc1
  by_cases hc2 : 8 ≤ i
  · refine decode_rest_cancel bl d2 _ 16 16 i hc2 (by omega) (le_refl 16) ?_ |>.trans
      (hd2_lt i (by omega) (by omega))
    rw [setByte_ne _ _ (by omega), decode_first8_eq bl d2 16 (by omega) i, if_neg (by omega)]
  push_neg at hc2
  rw [applyKeystreamFrom_out _ _ (by omega)]
  by_cases hc3 : i = 1
  · rw [hc3, setByte_at, h1]
  · rw [setByte_ne _ _ hc3, decode_first8_eq bl d2 16 (by omega) i, if_pos (by omega)]
    exact hd2_lt i (by omega) hc3

lemma roundtrip_transport_long (xxh : List Nat → List Nat → Nat → Nat → Nat)
    (o : WireGuardObfuscator) (rI : Nat) (rB : Nat → Nat) (p : Packet)
    (ho : o.enabled = true) (hfl : ¬ p.flags &&& PacketFlagObfuscateBeforeSend = 0)
    (h0 : p.data 0 = 4) (h1 : p.data 1 = 0)
    (hsh : 256 ≤ p.length) :
    (o.Deobfuscate xxh (o.Obfuscate xxh rI rB p)).length = p.length ∧
    ∀ i < p.length, (o.Deobfuscate xxh (o.Obfuscate xxh rI rB p)).data i = p.data i := by
  have hmt : p.MessageType = MessageTransportType := by
    unfold Packet.MessageType MessageTransportType
    rw [if_neg (by omega), h0]
  rw [Obfuscate_shape_transport_long xxh o rI rB p ho hfl hmt
    (by simp [kObfuscateSuffixAsNonceMinLength]; omega)]
  simp only [MessageTransportHeaderSize]
  rw [Deobfuscate_obfsXorEncode_enter xxh o p.data p.length 16 p.flags ho (by omega)
    (by simp [kObfuscateNonceLength]; omega) (by simp [MinMessageSize]; omega)
    (by omega) (Or.inl h1)]
  set N := Packet.tailNonce ⟨p.data, p.length, p.flags⟩ with hN
  set bl := keystreamBlocks xxh N o.userKeyHash with hbl
  have hq0 : applyKeystreamFrom bl (obfsXorEncode xxh o.userKeyHash p.data p.length 16 p.flags).data 0
      kObfuscateXORKeyLength 0 = MessageTransportType := by
    show applyKeystreamFrom bl (applyKeystreamFrom bl p.data 0 16) 0 kObfuscateXORKeyLength 0 =
      MessageTransportType
    simp only [kObfuscateXORKeyLength]
    rw [decode_first8_eq bl p.data 16 (by omega) 0, if_pos (by omega), h0]
    rfl
  have hq1 : ¬ applyKeystreamFrom bl (obfsXorEncode xxh o.userKeyHash p.data p.length 16 p.flags).data 0
      kObfuscateXORKeyLength 1 = 0x01 := by
    show ¬ applyKeystreamFrom bl (applyKeystreamFrom bl p.data 0 16) 0 kObfuscateXORKeyLength 1 = 0x01
    simp only [kObfuscateXORKeyLength]
    rw [decode_first8_eq bl p.data 16 (by omega) 1, if_pos (by omega), h1]
    omega
  rw [deobfsDecode_shape_transport_plain xxh o.userKeyHash N
    (obfsXorEncode xxh o.userKeyHash p.data p.length 16 p.flags)
    (by show ¬ p.length < 4; omega) hq0 hq1]
  simp only [deobfsFinish, obfsXorEncode, MessageTransportHeaderSize, kObfuscateXORKeyLength]
  refine ⟨by trivial, ?_⟩
  intro i hi
  by_cases hc1 : 16 ≤ i
  · rw [applyKeystreamFrom_out _ _ (by omega),
      decode_first8_eq bl p.data 16 (by omega) i, if_neg (by omega),
      applyKeystreamFrom_out _ _ (by omega)]
  push_neg at hc1
  by_cases hc2 : 8 ≤ i
  · exact decode_rest_cancel bl p.data _ 16 16 i hc2 (by omega) (le_refl 16)
      (by rw [decode_first8_eq bl p.data 16 (by omega) i, if_neg (by omega)])
  push_neg at hc2
  rw [applyKeystreamFrom_out _ _ (by omega),
    decode_first8_eq bl p.data 16 (by omega) i, if_pos (by omega)]

/-! ### Identity cases and pass-through -/

lemma Obfuscate_disabled (xxh : List Nat → List Nat → Nat → Nat → Nat)
    (o : WireGuardObfuscator) (randInt : Nat) (randBytes : Nat → Nat) (p : Packet)
    (ho : o.enabled = false) : o.Obfuscate xxh randInt randBytes p = p := by
  unfold WireGuardObfuscator.Obfuscate
  simp [ho]

lemma Deobfuscate_disabled (xxh : List Nat → List Nat → Nat → Nat → Nat)
    (o : WireGuardObfuscator) (p : Packet)
    (ho : o.enabled = false) : o.Deobfuscate xxh p = p := by
  unfold WireGuardObfuscator.Deobfuscate
  simp [ho]

lemma Obfuscate_no_flag (xxh : List Nat → List Nat → Nat → Nat → Nat)
    (o : WireGuardObfuscator) (randInt : Nat) (randBytes : Nat → Nat) (p : Packet)
    (hfl : p.flags &&& PacketFlagObfuscateBeforeSend = 0) :
    o.Obfuscate xxh randInt randBytes p = p := by
  unfold WireGuardObfuscator.Obfuscate
  by_cases ho : o.enabled <;> simp [ho, hfl]

lemma Deobfuscate_short (xxh : List Nat → List Nat → Nat → Nat → Nat)
    (o : WireGuardObfuscator) (p : Packet)
    (h : p.length < MinMessageSize) : o.Deobfuscate xxh p = p := by
  unfold WireGuardObfuscator.Deobfuscate
  by_cases ho : o.enabled <;> simp [ho, h]

lemma Deobfuscate_passthrough (xxh : List Nat → List Nat → Nat → Nat → Nat)
    (o : WireGuardObfuscator) (p : Packet)
    (hlen : ¬ p.length < MinMessageSize)
    (hcan : 1 ≤ p.data 0 ∧ p.data 0 ≤ 4 ∧ p.data 1 = 0 ∧ p.data 2 = 0 ∧ p.data 3 = 0) :
    o.Deobfuscate xxh p = p := by
  unfold WireGuardObfuscator.Deobfuscate
  by_cases ho : o.enabled <;> simp [ho, hlen, hcan]

/-- The first four bytes of any encoded packet fail the canonical
WireGuard pattern, for every nonce and user key hash. -/
lemma obfsXorEncode_not_canonical (xxh : List Nat → List Nat → Nat → Nat → Nat)
    (key : List Nat) (d : Nat → Nat) (len obfs fl : Nat)
    (h4 : 4 ≤ obfs) (hd0' : d 0 ≤ 4) (hd1 : d 1 = 0 ∨ d 1 = 1) :
    ¬(1 ≤ (obfsXorEncode xxh key d len obfs fl).data 0 ∧
      (obfsXorEncode xxh key d len obfs fl).data 0 ≤ 4 ∧
      (obfsXorEncode xxh key d len obfs fl).data 1 = 0 ∧
      (obfsXorEncode xxh key d len obfs fl).data 2 = 0 ∧
      (obfsXorEncode xxh key d len obfs fl).data 3 = 0) := by
  have e0 : (obfsXorEncode xxh key d len obfs fl).data 0 =
      d 0 ^^^ keystreamBlocks xxh (Packet.tailNonce ⟨d, len, fl⟩) key 0 0 := by
    show applyKeystreamFrom
      (keystreamBlocks xxh (Packet.tailNonce ⟨d, len, fl⟩) key) d 0 obfs 0 = _
    rw [applyKeystreamFrom_mem _ _ (Nat.zero_le 0) (by omega)]
  have e1 : (obfsXorEncode xxh key d len obfs fl).data 1 =
      d 1 ^^^ keystreamBlocks xxh (Packet.tailNonce ⟨d, len, fl⟩) key 0 1 := by
    show applyKeystreamFrom
      (keystreamBlocks xxh (Packet.tailNonce ⟨d, len, fl⟩) key) d 0 obfs 1 = _
    rw [applyKeystreamFrom_mem _ _ (Nat.zero_le 1) (by omega)]
  rw [e0, e1]
  exact xorHeaderNotCanonical
    (keystreamBlocks_zero_mask xxh (Packet.tailNonce ⟨d, len, fl⟩) key) hd0' hd1

/-! ### The claims -/

/-- C3: a packet of length at least `MinMessageSize` whose first four
bytes already form a canonical WireGuard header (`data[0]` in 1..4,
`data[1] = data[2] = data[3] = 0`) passes through `Deobfuscate`
completely unchanged -- data, length and flags -- for every user key,
enabled or not. -/
theorem C3_canonical_passthrough (xxh : List Nat → List Nat → Nat → Nat → Nat)
    (o : WireGuardObfuscator) (p : Packet)
    (hlen : MinMessageSize ≤ p.length)
    (h0a : 1 ≤ p.data 0) (h0b : p.data 0 ≤ 4)
    (h1 : p.data 1 = 0) (h2 : p.data 2 = 0) (h3 : p.data 3 = 0) :
    o.Deobfuscate xxh p = p :=
  Deobfuscate_passthrough xxh o p (by omega) ⟨h0a, h0b, h1, h2, h3⟩

/-- Witness for C3 at a concrete canonical transport frame. -/
theorem C3_canonical_passthrough_witness :
    (WireGuardObfuscator.mk true (List.replicate 32 5)).Deobfuscate (fun _ _ _ _ => 0)
      ⟨fun i => if i = 0 then 4 else 0, 32, 0⟩ =
    ⟨fun i => if i = 0 then 4 else 0, 32, 0⟩ :=
  C3_canonical_passthrough (fun _ _ _ _ => 0)
    (WireGuardObfuscator.mk true (List.replicate 32 5))
    ⟨fun i => if i = 0 then 4 else 0, 32, 0⟩
    (by decide) (by decide) (by decide) (by decide) (by decide) (by decide)

/-- C6: `Deobfuscate` is idempotent on canonical input: for every
canonical WireGuard frame and every user key,
`deobfuscate (deobfuscate P) = deobfuscate P`. -/
theorem C6_deobfuscate_idempotent_canonical (xxh : List Nat → List Nat → Nat → Nat → Nat)
    (o : WireGuardObfuscator) (p : Packet)
    (h0a : 1 ≤ p.data 0) (h0b : p.data 0 ≤ 4)
    (h1 : p.data 1 = 0) (h2 : p.data 2 = 0) (h3 : p.data 3 = 0) :
    o.Deobfuscate xxh (o.Deobfuscate xxh p) = o.Deobfuscate xxh p := by
  by_cases hlen : p.length < MinMessageSize
  · rw [Deobfuscate_short xxh o p hlen, Deobfuscate_short xxh o p hlen]
  · rw [Deobfuscate_passthrough xxh o p hlen ⟨h0a, h0b, h1, h2, h3⟩,
      Deobfuscate_passthrough xxh o p hlen ⟨h0a, h0b, h1, h2, h3⟩]

/-- Witness for C6 at a concrete canonical initiation frame. -/
theorem C6_deobfuscate_idempotent_canonical_witness :
    (WireGuardObfuscator.mk true (List.replicate 32 5)).Deobfuscate (fun _ _ _ _ => 0)
      ((WireGuardObfuscator.mk true (List.replicate 32 5)).Deobfuscate (fun _ _ _ _ => 0)
        ⟨fun i => if i = 0 then 1 else 0, 148, 0⟩) =
    (WireGuardObfuscator.mk true (List.replicate 32 5)).Deobfuscate (fun _ _ _ _ => 0)
      ⟨fun i => if i = 0 then 1 else 0, 148, 0⟩ :=
  C6_deobfuscate_idempotent_canonical (fun _ _ _ _ => 0)
    (WireGuardObfuscator.mk true (List.replicate 32 5))
    ⟨fun i => if i = 0 then 1 else 0, 148, 0⟩
    (by decide) (by decide) (by decide) (by decide) (by decide)

/-- C7: initializing with an empty user key disables the obfuscator and
both transforms become the identity on every packet; moreover, even an
enabled obfuscator leaves every packet without the ObfuscateBeforeSend
flag untouched. -/
theorem C7_empty_key_disables (xxh : List Nat → List Nat → Nat → Nat → Nat)
    (sha256Sum : List Nat → List Nat) (o0 : WireGuardObfuscator)
    (randInt : Nat) (randBytes : Nat → Nat) (p : Packet)
    (o : WireGuardObfuscator) (ho : o.enabled = true) (q : Packet)
    (hq : q.flags &&& PacketFlagObfuscateBeforeSend = 0) :
    (o0.Initialize sha256Sum []).enabled = false ∧
    (o0.Initialize sha256Sum []).Obfuscate xxh randInt randBytes p = p ∧
    (o0.Initialize sha256Sum []).Deobfuscate xxh p = p ∧
    o.Obfuscate xxh randInt randBytes q = q := by
  have hd : (o0.Initialize sha256Sum []).enabled = false := by
    unfold WireGuardObfuscator.Initialize
    simp
  exact ⟨hd, Obfuscate_disabled xxh _ randInt randBytes p hd,
    Deobfuscate_disabled xxh _ p hd, Obfuscate_no_flag xxh o randInt randBytes q hq⟩

/-- Witness for C7 at concrete packets. -/
theorem C7_empty_key_disables_witness :
    ((WireGuardObfuscator.mk true []).Initialize (fun _ => List.replicate 32 9) []).enabled = false ∧
    ((WireGuardObfuscator.mk true []).Initialize (fun _ => List.replicate 32 9) []).Obfuscate
      (fun _ _ _ _ => 0) 3 (fun _ => 7) ⟨fun i => if i = 0 then 1 else 0, 148, 1⟩ =
      ⟨fun i => if i = 0 then 1 else 0, 148, 1⟩ ∧
    ((WireGuardObfuscator.mk true []).Initialize (fun _ => List.replicate 32 9) []).Deobfuscate
      (fun _ _ _ _ => 0) ⟨fun i => if i = 0 then 1 else 0, 148, 1⟩ =
      ⟨fun i => if i = 0 then 1 else 0, 148, 1⟩ ∧
    (WireGuardObfuscator.mk true (List.replicate 32 9)).Obfuscate
      (fun _ _ _ _ => 0) 3 (fun _ => 7) ⟨fun i => if i = 0 then 1 else 0, 148, 0⟩ =
      ⟨fun i => if i = 0 then 1 else 0, 148, 0⟩ :=
  C7_empty_key_disables (fun _ _ _ _ => 0) (fun _ => List.replicate 32 9)
    (WireGuardObfuscator.mk true []) 3 (fun _ => 7)
    ⟨fun i => if i = 0 then 1 else 0, 148, 1⟩
    (WireGuardObfuscator.mk true (List.replicate 32 9)) (by decide)
    ⟨fun i => if i = 0 then 1 else 0, 148, 0⟩ (by decide)

/-- C8: a packet shorter than `MinMessageSize` is returned by
`Deobfuscate` untouched -- no byte, the length and the flags all
unchanged -- for every user key. -/
theorem C8_too_short_untouched (xxh : List Nat → List Nat → Nat → Nat → Nat)
    (o : WireGuardObfuscator) (p : Packet)
    (h : p.length < MinMessageSize) :
    o.Deobfuscate xxh p = p :=
  Deobfuscate_short xxh o p h

/-- Witness for C8 at a concrete 20-byte packet. -/
theorem C8_too_short_untouched_witness :
    (WireGuardObfuscator.mk true (List.replicate 32 5)).Deobfuscate (fun _ _ _ _ => 0)
      ⟨fun i => i * 3, 20, 0⟩ = ⟨fun i => i * 3, 20, 0⟩ :=
  C8_too_short_untouched (fun _ _ _ _ => 0)
    (WireGuardObfuscator.mk true (List.replicate 32 5)) ⟨fun i => i * 3, 20, 0⟩ (by decide)

/-- C5: `Obfuscate` length bounds: Initiation, Response and CookieReply
frames come out with `fixed_size + 16 ≤ length < fixed_size + 16 + 384`;
a Transport frame shorter than 256 grows by exactly 16, a longer one
keeps its length. -/
theorem C5_obfuscate_length_bounds (xxh : List Nat → List Nat → Nat → Nat → Nat)
    (o : WireGuardObfuscator) (ho : o.enabled = true)
    (randInt : Nat) (randBytes : Nat → Nat) (p : Packet)
    (hfl : ¬ p.flags &&& PacketFlagObfuscateBeforeSend = 0)
    (hlen : 4 ≤ p.length) :
    (p.data 0 = 1 →
      MessageInitiationSize + kObfuscateNonceLength ≤ (o.Obfuscate xxh randInt randBytes p).length ∧
      (o.Obfuscate xxh randInt randBytes p).length <
        MessageInitiationSize + kObfuscateNonceLength + kObfuscateRandomSuffixMaxLength) ∧
    (p.data 0 = 2 →
      MessageResponseSize + kObfuscateNonceLength ≤ (o.Obfuscate xxh randInt randBytes p).length ∧
      (o.Obfuscate xxh randInt randBytes p).length <
        MessageResponseSize + kObfuscateNonceLength + kObfuscateRandomSuffixMaxLength) ∧
    (p.data 0 = 3 →
      MessageCookieReplySize + kObfuscateNonceLength ≤ (o.Obfuscate xxh randInt randBytes p).length ∧
      (o.Obfuscate xxh randInt randBytes p).length <
        MessageCookieReplySize + kObfuscateNonceLength + kObfuscateRandomSuffixMaxLength) ∧
    (p.data 0 = 4 → p.length < 256 →
      (o.Obfuscate xxh randInt randBytes p).length = p.length + 16) ∧
    (p.data 0 = 4 → 256 ≤ p.length →
      (o.Obfuscate xxh randInt randBytes p).length = p.length) := by
  refine ⟨?_, ?_, ?_, ?_, ?_⟩
  · intro h0
    have hmt : p.MessageType = MessageInitiationType := by
      unfold Packet.MessageType MessageInitiationType
      rw [if_neg (by omega), h0]
    by_cases hz : isAllZero (dataSlice p.data kMessageInitiationTypeMAC2Offset MessageInitiationSize) = true
    · rw [Obfuscate_shape_init_marker xxh o randInt randBytes p ho hfl hmt hz]
      simp only [obfsXorEncode, MessageInitiationSize, kObfuscateNonceLength,
        kObfuscateRandomSuffixMaxLength]
      omega
    · rw [Obfuscate_shape_init_plain xxh o randInt randBytes p ho hfl hmt hz]
      simp only [obfsXorEncode, MessageInitiationSize, kObfuscateNonceLength,
        kObfuscateRandomSuffixMaxLength]
      omega
  · intro h0
    have hmt : p.MessageType = MessageResponseType := by
      unfold Packet.MessageType MessageResponseType
      rw [if_neg (by omega), h0]
    by_cases hz : isAllZero (dataSlice p.data kMessageResponseTypeMAC2Offset MessageResponseSize) = true
    · rw [Obfuscate_shape_resp_marker xxh o randInt randBytes p ho hfl hmt hz]
      simp only [obfsXorEncode, MessageResponseSize, kObfuscateNonceLength,
        kObfuscateRandomSuffixMaxLength]
      omega
    · rw [Obfuscate_shape_resp_plain xxh o randInt randBytes p ho hfl hmt hz]
      simp only [obfsXorEncode, MessageResponseSize, kObfuscateNonceLength,
        kObfuscateRandomSuffixMaxLength]
      omega
  · intro h0
    have hmt : p.MessageType = MessageCookieReplyType := by
      unfold Packet.MessageType MessageCookieReplyType
      rw [if_neg (by omega), h0]
    rw [Obfuscate_shape_cookie xxh o randInt randBytes p ho hfl hmt]
    simp only [obfsXorEncode, MessageCookieReplySize, kObfuscateNonceLength,
      kObfuscateRandomSuffixMaxLength]
    omega
  · intro h0 hsh
    have hmt : p.MessageType = MessageTransportType := by
      unfold Packet.MessageType MessageTransportType
      rw [if_neg (by omega), h0]
    rw [Obfuscate_shape_transport_short xxh o randInt randBytes p ho hfl hmt
      (by simpa [kObfuscateSuffixAsNonceMinLength] using hsh)]
    simp only [obfsXorEncode, kObfuscateNonceLength]
  · intro h0 hsh
    have hmt : p.MessageType = MessageTransportType := by
      unfold Packet.MessageType MessageTransportType
      rw [if_neg (by omega), h0]
    rw [Obfuscate_shape_transport_long xxh o randInt randBytes p ho hfl hmt
      (by simp [kObfuscateSuffixAsNonceMinLength]; omega)]
    rfl

/-- Witness for C5 at a concrete response frame. -/
theorem C5_obfuscate_length_bounds_witness :
    (⟨fun i => if i = 0 then 2 else 0, 92, 1⟩ : Packet).data 0 = 2 ∧
    (MessageResponseSize + kObfuscateNonceLength ≤
      ((WireGuardObfuscator.mk true (List.replicate 32 5)).Obfuscate (fun _ _ _ _ => 0) 7 (fun _ => 9)
        ⟨fun i => if i = 0 then 2 else 0, 92, 1⟩).length ∧
     ((WireGuardObfuscator.mk true (List.replicate 32 5)).Obfuscate (fun _ _ _ _ => 0) 7 (fun _ => 9)
        ⟨fun i => if i = 0 then 2 else 0, 92, 1⟩).length <
      MessageResponseSize + kObfuscateNonceLength + kObfuscateRandomSuffixMaxLength) :=
  ⟨by decide,
    (C5_obfuscate_length_bounds (fun _ _ _ _ => 0)
      (WireGuardObfuscator.mk true (List.replicate 32 5)) (by decide) 7 (fun _ => 9)
      ⟨fun i => if i = 0 then 2 else 0, 92, 1⟩ (by decide) (by decide)).2.1 (by decide)⟩

/-- C2: for every nonce and user key hash (the keystream digest is
universally quantified) and every canonical input frame with message
type in 1..4, the first four bytes of the obfuscated output never match
the canonical WireGuard pattern -- a consequence of the collision-fix
mask on keystream block 0. -/
theorem C2_header_disambiguation (xxh : List Nat → List Nat → Nat → Nat → Nat)
    (o : WireGuardObfuscator) (ho : o.enabled = true)
    (randInt : Nat) (randBytes : Nat → Nat) (p : Packet)
    (hfl : ¬ p.flags &&& PacketFlagObfuscateBeforeSend = 0)
    (h0a : 1 ≤ p.data 0) (h0b : p.data 0 ≤ 4)
    (h1 : p.data 1 = 0) (h2 : p.data 2 = 0) (h3 : p.data 3 = 0)
    (hlen : 4 ≤ p.length) :
    ¬(1 ≤ (o.Obfuscate xxh randInt randBytes p).data 0 ∧
      (o.Obfuscate xxh randInt randBytes p).data 0 ≤ 4 ∧
      (o.Obfuscate xxh randInt randBytes p).data 1 = 0 ∧
      (o.Obfuscate xxh randInt randBytes p).data 2 = 0 ∧
      (o.Obfuscate xxh randInt randBytes p).data 3 = 0) := by
  have hd0 : p.data 0 = 1 ∨ p.data 0 = 2 ∨ p.data 0 = 3 ∨ p.data 0 = 4 := by omega
  rcases hd0 with h0 | h0 | h0 | h0
  · have hmt : p.MessageType = MessageInitiationType := by
      unfold Packet.MessageType MessageInitiationType
      rw [if_neg (by omega), h0]
    by_cases hz : isAllZero (dataSlice p.data kMessageInitiationTypeMAC2Offset MessageInitiationSize) = true
    · rw [Obfuscate_shape_init_marker xxh o randInt randBytes p ho hfl hmt hz]
      refine obfsXorEncode_not_canonical xxh o.userKeyHash _ _ _ _
        (by simp [kMessageInitiationTypeMAC2Offset]) ?_ ?_
      · rw [writeRange_out _ _ (by simp [kMessageInitiationTypeMAC2Offset]),
          setByte_ne _ _ (by omega)]
        omega
      · rw [writeRange_out _ _ (by simp [kMessageInitiationTypeMAC2Offset]), setByte_at]
        exact Or.inr rfl
    · rw [Obfuscate_shape_init_plain xxh o randInt randBytes p ho hfl hmt hz]
      refine obfsXorEncode_not_canonical xxh o.userKeyHash _ _ _ _
        (by simp [MessageInitiationSize]) ?_ ?_
      · rw [writeRange_out _ _ (by simp [MessageInitiationSize])]
        omega
      · rw [writeRange_out _ _ (by simp [MessageInitiationSize])]
        exact Or.inl h1
  · have hmt : p.MessageType = MessageResponseType := by
      unfold Packet.MessageType MessageResponseType
      rw [if_neg (by omega), h0]
    by_cases hz : isAllZero (dataSlice p.data kMessageResponseTypeMAC2Offset MessageResponseSize) = true
    · rw [Obfuscate_shape_resp_marker xxh o randInt randBytes p ho hfl hmt hz]
      refine obfsXorEncode_not_canonical xxh o.userKeyHash _ _ _ _
        (by simp [kMessageResponseTypeMAC2Offset]) ?_ ?_
      · rw [writeRange_out _ _ (by simp [kMessageResponseTypeMAC2Offset]),
          setByte_ne _ _ (by omega)]
        omega
      · rw [writeRange_out _ _ (by simp [kMessageResponseTypeMAC2Offset]), setByte_at]
        exact Or.inr rfl
    · rw [Obfuscate_shape_resp_plain xxh o randInt randBytes p ho hfl hmt hz]
      refine obfsXorEncode_not_canonical xxh o.userKeyHash _ _ _ _
        (by simp [MessageResponseSize]) ?_ ?_
      · rw [writeRange_out _ _ (by simp [MessageResponseSize])]
        omega
      · rw [writeRange_out _ _ (by simp [MessageResponseSize])]
        exact Or.inl h1
  · have hmt : p.MessageType = MessageCookieReplyType := by
      unfold Packet.MessageType MessageCookieReplyType
      rw [if_neg (by omega), h0]
    rw [Obfuscate_shape_cookie xxh o randInt randBytes p ho hfl hmt]
    refine obfsXorEncode_not_canonical xxh o.userKeyHash _ _ _ _
      (by simp [MessageCookieReplySize]) ?_ ?_
    · rw [writeRange_out _ _ (by simp [MessageCookieReplySize])]
      omega
    · rw [writeRange_out _ _ (by simp [MessageCookieReplySize])]
      exact Or.inl h1
  · have hmt : p.MessageType = MessageTransportType := by
      unfold Packet.MessageType MessageTransportType
      rw [if_neg (by omega), h0]
    by_cases hsh : p.length < kObfuscateSuffixAsNonceMinLength
    · rw [Obfuscate_shape_transport_short xxh o randInt randBytes p ho hfl hmt hsh]
      refine obfsXorEncode_not_canonical xxh o.userKeyHash _ _ _ _
        (by simp [MessageTransportHeaderSize]) ?_ ?_
      · rw [writeRange_out _ _ (by omega), setByte_ne _ _ (by omega)]
        omega
      · rw [writeRange_out _ _ (by omega), setByte_at]
        exact Or.inr rfl
    · rw [Obfuscate_shape_transport_long xxh o randInt randBytes p ho hfl hmt hsh]
      exact obfsXorEncode_not_canonical xxh o.userKeyHash _ _ _ _
        (by simp [MessageTransportHeaderSize]) (by omega) (Or.inl h1)

/-- Witness for C2 at a concrete short transport frame. -/
theorem C2_header_disambiguation_witness :
    ¬(1 ≤ ((WireGuardObfuscator.mk true (List.replicate 32 5)).Obfuscate (fun _ _ _ _ => 0) 7 (fun _ => 9)
        ⟨fun i => if i = 0 then 4 else 0, 40, 1⟩).data 0 ∧
      ((WireGuardObfuscator.mk true (List.replicate 32 5)).Obfuscate (fun _ _ _ _ => 0) 7 (fun _ => 9)
        ⟨fun i => if i = 0 then 4 else 0, 40, 1⟩).data 0 ≤ 4 ∧
      ((WireGuardObfuscator.mk true (List.replicate 32 5)).Obfuscate (fun _ _ _ _ => 0) 7 (fun _ => 9)
        ⟨fun i => if i = 0 then 4 else 0, 40, 1⟩).data 1 = 0 ∧
      ((WireGuardObfuscator.mk true (List.replicate 32 5)).Obfuscate (fun _ _ _ _ => 0) 7 (fun _ => 9)
        ⟨fun i => if i = 0 then 4 else 0, 40, 1⟩).data 2 = 0 ∧
      ((WireGuardObfuscator.mk true (List.replicate 32 5)).Obfuscate (fun _ _ _ _ => 0) 7 (fun _ => 9)
        ⟨fun i => if i = 0 then 4 else 0, 40, 1⟩).data 3 = 0) :=
  C2_header_disambiguation (fun _ _ _ _ => 0)
    (WireGuardObfuscator.mk true (List.replicate 32 5)) (by decide) 7 (fun _ => 9)
    ⟨fun i => if i = 0 then 4 else 0, 40, 1⟩ (by decide) (by decide) (by decide)
    (by decide) (by decide) (by decide) (by decide)

/-- C10: when the obfuscator is enabled and a long-enough packet fails
the canonical pass-through check but the first byte revealed by XORing
keystream block 0 is not in 1..4, `Deobfuscate` changes only the first
8 data bytes: every byte from index 8 on, the length and the flags are
unchanged (so DeobfuscatedAfterReceived is not set). -/
theorem C10_unknown_revealed_type_first8_only (xxh : List Nat → List Nat → Nat → Nat → Nat)
    (o : WireGuardObfuscator) (p : Packet) (ho : o.enabled = true)
    (hlen : ¬ p.length < MinMessageSize)
    (hnc : ¬(1 ≤ p.data 0 ∧ p.data 0 ≤ 4 ∧ p.data 1 = 0 ∧ p.data 2 = 0 ∧ p.data 3 = 0))
    (hrev : ¬(p.data 0 ^^^ keystreamBlocks xxh (Packet.tailNonce p) o.userKeyHash 0 0 = 1 ∨
      p.data 0 ^^^ keystreamBlocks xxh (Packet.tailNonce p) o.userKeyHash 0 0 = 2 ∨
      p.data 0 ^^^ keystreamBlocks xxh (Packet.tailNonce p) o.userKeyHash 0 0 = 3 ∨
      p.data 0 ^^^ keystreamBlocks xxh (Packet.tailNonce p) o.userKeyHash 0 0 = 4)) :
    (o.Deobfuscate xxh p).length = p.length ∧
    (o.Deobfuscate xxh p).flags = p.flags ∧
    (∀ j, 8 ≤ j → (o.Deobfuscate xxh p).data j = p.data j) ∧
    (∀ j, j < 8 → (o.Deobfuscate xxh p).data j =
      p.data j ^^^ keystreamBlocks xxh (Packet.tailNonce p) o.userKeyHash 0 j) := by
  rw [Deobfuscate_enter xxh o p ho hlen hnc]
  have he : applyKeystreamFrom (keystreamBlocks xxh (Packet.tailNonce p) o.userKeyHash)
      p.data 0 kObfuscateXORKeyLength 0 =
      p.data 0 ^^^ keystreamBlocks xxh (Packet.tailNonce p) o.userKeyHash 0 0 := by
    rw [applyKeystreamFrom_mem _ _ (Nat.zero_le 0) (by simp [kObfuscateXORKeyLength])]
  rw [deobfsDecode_shape_default xxh o.userKeyHash (Packet.tailNonce p) p
    (by simp [MinMessageSize] at hlen; omega) (by rw [he]; exact hrev)]
  refine ⟨rfl, rfl, ?_, ?_⟩
  · intro j hj
    show applyKeystreamFrom (keystreamBlocks xxh (Packet.tailNonce p) o.userKeyHash)
      p.data 0 kObfuscateXORKeyLength j = p.data j
    exact applyKeystreamFrom_out _ _ (by simp [kObfuscateXORKeyLength]; omega)
  · intro j hj
    show applyKeystreamFrom (keystreamBlocks xxh (Packet.tailNonce p) o.userKeyHash)
      p.data 0 kObfuscateXORKeyLength j =
      p.data j ^^^ keystreamBlocks xxh (Packet.tailNonce p) o.userKeyHash 0 j
    rw [applyKeystreamFrom_mem _ _ (Nat.zero_le j) (by simp [kObfuscateXORKeyLength]; omega),
      Nat.div_eq_of_lt hj, Nat.mod_eq_of_lt hj]

/-- Witness for C10 at a concrete 32-byte junk packet (first byte 9). -/
theorem C10_unknown_revealed_type_first8_only_witness :
    ((WireGuardObfuscator.mk true (List.replicate 32 5)).Deobfuscate (fun _ _ _ _ => 0)
      ⟨fun i => if i = 0 then 9 else 0, 32, 0⟩).length =
      (⟨fun i => if i = 0 then 9 else 0, 32, 0⟩ : Packet).length ∧
    ((WireGuardObfuscator.mk true (List.replicate 32 5)).Deobfuscate (fun _ _ _ _ => 0)
      ⟨fun i => if i = 0 then 9 else 0, 32, 0⟩).flags =
      (⟨fun i => if i = 0 then 9 else 0, 32, 0⟩ : Packet).flags ∧
    (∀ j, 8 ≤ j → ((WireGuardObfuscator.mk true (List.replicate 32 5)).Deobfuscate (fun _ _ _ _ => 0)
      ⟨fun i => if i = 0 then 9 else 0, 32, 0⟩).data j =
      (⟨fun i => if i = 0 then 9 else 0, 32, 0⟩ : Packet).data j) ∧
    (∀ j, j < 8 → ((WireGuardObfuscator.mk true (List.replicate 32 5)).Deobfuscate (fun _ _ _ _ => 0)
      ⟨fun i => if i = 0 then 9 else 0, 32, 0⟩).data j =
      (⟨fun i => if i = 0 then 9 else 0, 32, 0⟩ : Packet).data j ^^^
        keystreamBlocks (fun _ _ _ _ => 0)
          (Packet.tailNonce ⟨fun i => if i = 0 then 9 else 0, 32, 0⟩) (List.replicate 32 5) 0 j) :=
  C10_unknown_revealed_type_first8_only (fun _ _ _ _ => 0)
    (WireGuardObfuscator.mk true (List.replicate 32 5))
    ⟨fun i => if i = 0 then 9 else 0, 32, 0⟩
    (by decide) (by decide) (by decide) (by decide)

/-- C1: round-trip identity for canonical WireGuard frames.  For every
canonical frame (type byte 1..4 with its valid length, header bytes
1..3 zero), every non-empty user key, and every choice of the random
suffix length, random tape and nonce drawn inside `Obfuscate`,
deobfuscating the obfuscated packet restores the original length and
the first `length` bytes -- the 0x01 marker is cleared, a randomized
all-zero MAC2 region is restored to zeros, and the random suffix and
nonce are discarded. -/
theorem C1_roundtrip_identity (xxh : List Nat → List Nat → Nat → Nat → Nat)
    (sha256Sum : List Nat → List Nat) (o0 : WireGuardObfuscator)
    (userKey : List Nat) (hkey : userKey ≠ [])
    (randInt : Nat) (randBytes : Nat → Nat) (p : Packet)
    (h1 : p.data 1 = 0) (h2 : p.data 2 = 0) (h3 : p.data 3 = 0)
    (hty : (p.data 0 = 1 ∧ p.length = 148) ∨ (p.data 0 = 2 ∧ p.length = 92) ∨
           (p.data 0 = 3 ∧ p.length = 64) ∨ (p.data 0 = 4 ∧ 32 ≤ p.length)) :
    ((o0.Initialize sha256Sum userKey).Deobfuscate xxh
      ((o0.Initialize sha256Sum userKey).Obfuscate xxh randInt randBytes p)).length = p.length ∧
    ∀ i < p.length,
      ((o0.Initialize sha256Sum userKey).Deobfuscate xxh
        ((o0.Initialize sha256Sum userKey).Obfuscate xxh randInt randBytes p)).data i = p.data i := by
  have ho : (o0.Initialize sha256Sum userKey).enabled = true := by
    unfold WireGuardObfuscator.Initialize
    rw [if_neg (fun hq => hkey (List.length_eq_zero.mp hq))]
  set o := o0.Initialize sha256Sum userKey with hodef
  have hlen32 : 32 ≤ p.length := by
    rcases hty with ⟨-, h⟩ | ⟨-, h⟩ | ⟨-, h⟩ | ⟨-, h⟩ <;> omega
  by_cases hfl : p.flags &&& PacketFlagObfuscateBeforeSend = 0
  · rw [Obfuscate_no_flag xxh o randInt randBytes p hfl]
    have hd04 : 1 ≤ p.data 0 ∧ p.data 0 ≤ 4 := by
      rcases hty with ⟨h, -⟩ | ⟨h, -⟩ | ⟨h, -⟩ | ⟨h, -⟩ <;> omega
    rw [Deobfuscate_passthrough xxh o p (by simp [MinMessageSize]; omega)
      ⟨hd04.1, hd04.2, h1, h2, h3⟩]
    exact ⟨rfl, fun i _ => rfl⟩
  · rcases hty with ⟨h0, hlen⟩ | ⟨h0, hlen⟩ | ⟨h0, hlen⟩ | ⟨h0, hlen⟩
    · by_cases hz : isAllZero (dataSlice p.data kMessageInitiationTypeMAC2Offset MessageInitiationSize) = true
      · refine roundtrip_init_marker xxh o randInt randBytes p ho hfl h0 h1 hlen ?_
        intro j hj1 hj2
        exact isAllZero_dataSlice.mp hz j
          (by simpa [kMessageInitiationTypeMAC2Offset] using hj1)
          (by simpa [MessageInitiationSize] using hj2)
      · exact roundtrip_init_plain xxh o randInt randBytes p ho hfl h0 h1 hlen hz
    · by_cases hz : isAllZero (dataSlice p.data kMessageResponseTypeMAC2Offset MessageResponseSize) = true
      · refine roundtrip_resp_marker xxh o randInt randBytes p ho hfl h0 h1 hlen ?_
        intro j hj1 hj2
        exact isAllZero_dataSlice.mp hz j
          (by simpa [kMessageResponseTypeMAC2Offset] using hj1)
          (by simpa [MessageResponseSize] using hj2)
      · exact roundtrip_resp_plain xxh o randInt randBytes p ho hfl h0 h1 hlen hz
    · exact roundtrip_cookie xxh o randInt randBytes p ho hfl h0 h1 hlen
    · by_cases hsh : p.length < 256
      · exact roundtrip_transport_short xxh o randInt randBytes p ho hfl h0 h1 hlen hsh
      · exact roundtrip_transport_long xxh o randInt randBytes p ho hfl h0 h1 (by omega)

/-- Witness for C1: a concrete 40-byte transport frame through a
concrete keystream function, with obfuscation requested by the flag. -/
theorem C1_roundtrip_identity_witness :
    (([1, 2] : List Nat) ≠ []) ∧
    ((((WireGuardObfuscator.mk false []).Initialize (fun _ => List.replicate 32 7) [1, 2]).Deobfuscate
        (fun n _ k i => (n.headD 0 + 37 * k + 11 * i + 5) % 256)
        (((WireGuardObfuscator.mk false []).Initialize (fun _ => List.replicate 32 7) [1, 2]).Obfuscate
          (fun n _ k i => (n.headD 0 + 37 * k + 11 * i + 5) % 256) 5 (fun i => (i * 7 + 3) % 256)
          ⟨fun i => if i = 0 then 4 else if i ≤ 3 then 0 else (i * 3) % 256, 40, 1⟩)).length =
      (⟨fun i => if i = 0 then 4 else if i ≤ 3 then 0 else (i * 3) % 256, 40, 1⟩ : Packet).length ∧
    ∀ i < (⟨fun i => if i = 0 then 4 else if i ≤ 3 then 0 else (i * 3) % 256, 40, 1⟩ : Packet).length,
      (((WireGuardObfuscator.mk false []).Initialize (fun _ => List.replicate 32 7) [1, 2]).Deobfuscate
        (fun n _ k i => (n.headD 0 + 37 * k + 11 * i + 5) % 256)
        (((WireGuardObfuscator.mk false []).Initialize (fun _ => List.replicate 32 7) [1, 2]).Obfuscate
          (fun n _ k i => (n.headD 0 + 37 * k + 11 * i + 5) % 256) 5 (fun i => (i * 7 + 3) % 256)
          ⟨fun i => if i = 0 then 4 else if i ≤ 3 then 0 else (i * 3) % 256, 40, 1⟩)).data i =
      (⟨fun i => if i = 0 then 4 else if i ≤ 3 then 0 else (i * 3) % 256, 40, 1⟩ : Packet).data i) :=
  ⟨by decide,
    C1_roundtrip_identity (fun n _ k i => (n.headD 0 + 37 * k + 11 * i + 5) % 256)
      (fun _ => List.replicate 32 7) (WireGuardObfuscator.mk false []) [1, 2] (by decide)
      5 (fun i => (i * 7 + 3) % 256)
      ⟨fun i => if i = 0 then 4 else if i ≤ 3 then 0 else (i * 3) % 256, 40, 1⟩
      (by decide) (by decide) (by decide) (by decide)⟩

/-- C4 counterexample: the claim says the wire packet of an obfuscated
zero-MAC2 Response carries `data[1] == 0x01`; in the code the marker is
written before the keystream XOR, whose block 0 covers byte 1, so with a
keystream whose block 0 has byte 1 equal to 2 the wire byte is
`0x01 XOR 2 = 3`.  The concrete input is a canonical Response frame of
length 92 with all-zero MAC2. -/
theorem C4_wire_marker_counterexample :
    (⟨fun i => if i = 0 then 2 else 0, 92, 1⟩ : Packet).data 0 = 2 ∧
    (∀ j < 92, 76 ≤ j → (⟨fun i => if i = 0 then 2 else 0, 92, 1⟩ : Packet).data j = 0) ∧
    ((WireGuardObfuscator.mk true []).Obfuscate (fun _ _ _ i => if i = 1 then 2 else 0) 0 (fun _ => 0)
      ⟨fun i => if i = 0 then 2 else 0, 92, 1⟩).data 1 = 3 ∧
    ¬((WireGuardObfuscator.mk true []).Obfuscate (fun _ _ _ i => if i = 1 then 2 else 0) 0 (fun _ => 0)
      ⟨fun i => if i = 0 then 2 else 0, 92, 1⟩).data 1 = 0x01 := by
  refine ⟨rfl, ?_, ?_, ?_⟩ <;> decide

/-- C4 (amended): obfuscating a Response frame with all-zero MAC2 sets
the marker `data[1] := 0x01` before the keystream XOR, so the wire
packet carries `0x01 XOR block0[1]` at byte 1 (and deobfuscation
reveals 0x01 there); the MAC2 region is filled from the random tape and
is not covered by the XOR keystream; and the round trip through
`Deobfuscate` restores the length to 92, the MAC2 region to all zeros
and `data[1]` to zero. -/
theorem C4_response_mac2_amended (xxh : List Nat → List Nat → Nat → Nat → Nat)
    (sha256Sum : List Nat → List Nat) (o0 : WireGuardObfuscator)
    (userKey : List Nat) (hkey : userKey ≠ [])
    (randInt : Nat) (randBytes : Nat → Nat) (p : Packet)
    (hfl : ¬ p.flags &&& PacketFlagObfuscateBeforeSend = 0)
    (h0 : p.data 0 = 2) (h1 : p.data 1 = 0) (hlen : p.length = 92)
    (hz : ∀ j, 76 ≤ j → j < 92 → p.data j = 0) :
    ((o0.Initialize sha256Sum userKey).Obfuscate xxh randInt randBytes p).data 1 =
      0x01 ^^^ keystreamBlocks xxh
        (Packet.tailNonce ((o0.Initialize sha256Sum userKey).Obfuscate xxh randInt randBytes p))
        (o0.Initialize sha256Sum userKey).userKeyHash 0 1 ∧
    (∀ i, 76 ≤ i → i < 92 →
      ((o0.Initialize sha256Sum userKey).Obfuscate xxh randInt randBytes p).data i = randBytes i) ∧
    ((o0.Initialize sha256Sum userKey).Deobfuscate xxh
      ((o0.Initialize sha256Sum userKey).Obfuscate xxh randInt randBytes p)).length = 92 ∧
    ∀ i < 92, ((o0.Initialize sha256Sum userKey).Deobfuscate xxh
      ((o0.Initialize sha256Sum userKey).Obfuscate xxh randInt randBytes p)).data i = p.data i := by
  have ho : (o0.Initialize sha256Sum userKey).enabled = true := by
    unfold WireGuardObfuscator.Initialize
    rw [if_neg (fun hq => hkey (List.length_eq_zero.mp hq))]
  set o := o0.Initialize sha256Sum userKey with hodef
  have hmt : p.MessageType = MessageResponseType := by
    unfold Packet.MessageType MessageResponseType
    rw [if_neg (by omega), h0]
  have hzz : isAllZero (dataSlice p.data kMessageResponseTypeMAC2Offset MessageResponseSize) = true := by
    rw [isAllZero_dataSlice]
    intro j hj1 hj2
    refine hz j ?_ ?_
    · simpa [kMessageResponseTypeMAC2Offset] using hj1
    · simpa [MessageResponseSize] using hj2
  have hq := Obfuscate_shape_resp_marker xxh o randInt randBytes p ho hfl hmt hzz
  have hr := roundtrip_resp_marker xxh o randInt randBytes p ho hfl h0 h1 hlen hz
  rw [hlen] at hr
  refine ⟨?_, ?_, hr.1, hr.2⟩
  · rw [hq]
    simp only [MessageResponseSize, kMessageResponseTypeMAC2Offset, kObfuscateNonceLength,
      kObfuscateRandomSuffixMaxLength]
    set LL := 92 + 16 + randInt % 384 with hLL
    set d2 := writeRange (setByte p.data 1 0x01) randBytes 76 LL with hd2
    have hn : Packet.tailNonce (obfsXorEncode xxh o.userKeyHash d2 LL 76 p.flags) =
        Packet.tailNonce ⟨d2, LL, p.flags⟩ := by
      show Packet.tailNonce ⟨applyKeystreamFrom
        (keystreamBlocks xxh (Packet.tailNonce ⟨d2, LL, p.flags⟩) o.userKeyHash) d2 0 76, LL,
        p.flags⟩ = _
      exact tailNonce_applyKeystreamFrom _ d2 LL 76 p.flags (by simp [kObfuscateNonceLength]; omega)
    rw [hn]
    show applyKeystreamFrom
      (keystreamBlocks xxh (Packet.tailNonce ⟨d2, LL, p.flags⟩) o.userKeyHash) d2 0 76 1 = _
    rw [applyKeystreamFrom_mem _ _ (Nat.zero_le 1) (by omega)]
    rw [hd2, writeRange_out _ _ (by omega), setByte_at]
  · rw [hq]
    simp only [MessageResponseSize, kMessageResponseTypeMAC2Offset, kObfuscateNonceLength,
      kObfuscateRandomSuffixMaxLength]
    intro i hi1 hi2
    show applyKeystreamFrom
      (keystreamBlocks xxh (Packet.tailNonce
        ⟨writeRange (setByte p.data 1 0x01) randBytes 76 (92 + 16 + randInt % 384),
          92 + 16 + randInt % 384, p.flags⟩) o.userKeyHash)
      (writeRange (setByte p.data 1 0x01) randBytes 76 (92 + 16 + randInt % 384)) 0 76 i = randBytes i
    rw [applyKeystreamFrom_out _ _ (by omega), writeRange_mem _ _ (by omega) (by omega)]

/-- Witness for C4 (amended) at a concrete zero-MAC2 Response frame. -/
theorem C4_response_mac2_amended_witness :
    (([1, 2] : List Nat) ≠ []) ∧
    ((((WireGuardObfuscator.mk false []).Initialize (fun _ => List.replicate 32 7) [1, 2]).Obfuscate
        (fun n _ k i => (n.headD 0 + 37 * k + 11 * i + 5) % 256) 41 (fun i => (i * 7 + 3) % 256)
        ⟨fun i => if i = 0 then 2 else if i ≤ 3 then 0 else if i < 76 then (i * 5) % 256 else 0, 92, 1⟩).data 1 =
      0x01 ^^^ keystreamBlocks (fun n _ k i => (n.headD 0 + 37 * k + 11 * i + 5) % 256)
        (Packet.tailNonce (((WireGuardObfuscator.mk false []).Initialize (fun _ => List.replicate 32 7) [1, 2]).Obfuscate
          (fun n _ k i => (n.headD 0 + 37 * k + 11 * i + 5) % 256) 41 (fun i => (i * 7 + 3) % 256)
          ⟨fun i => if i = 0 then 2 else if i ≤ 3 then 0 else if i < 76 then (i * 5) % 256 else 0, 92, 1⟩))
        ((WireGuardObfuscator.mk false []).Initialize (fun _ => List.replicate 32 7) [1, 2]).userKeyHash 0 1 ∧
    (∀ i, 76 ≤ i → i < 92 →
      (((WireGuardObfuscator.mk false []).Initialize (fun _ => List.replicate 32 7) [1, 2]).Obfuscate
        (fun n _ k i => (n.headD 0 + 37 * k + 11 * i + 5) % 256) 41 (fun i => (i * 7 + 3) % 256)
        ⟨fun i => if i = 0 then 2 else if i ≤ 3 then 0 else if i < 76 then (i * 5) % 256 else 0, 92, 1⟩).data i =
      (i * 7 + 3) % 256) ∧
    (((WireGuardObfuscator.mk false []).Initialize (fun _ => List.replicate 32 7) [1, 2]).Deobfuscate
      (fun n _ k i => (n.headD 0 + 37 * k + 11 * i + 5) % 256)
      (((WireGuardObfuscator.mk false []).Initialize (fun _ => List.replicate 32 7) [1, 2]).Obfuscate
        (fun n _ k i => (n.headD 0 + 37 * k + 11 * i + 5) % 256) 41 (fun i => (i * 7 + 3) % 256)
        ⟨fun i => if i = 0 then 2 else if i ≤ 3 then 0 else if i < 76 then (i * 5) % 256 else 0, 92, 1⟩)).length = 92 ∧
    ∀ i < 92, (((WireGuardObfuscator.mk false []).Initialize (fun _ => List.replicate 32 7) [1, 2]).Deobfuscate
      (fun n _ k i => (n.headD 0 + 37 * k + 11 * i + 5) % 256)
      (((WireGuardObfuscator.mk false []).Initialize (fun _ => List.replicate 32 7) [1, 2]).Obfuscate
        (fun n _ k i => (n.headD 0 + 37 * k + 11 * i + 5) % 256) 41 (fun i => (i * 7 + 3) % 256)
        ⟨fun i => if i = 0 then 2 else if i ≤ 3 then 0 else if i < 76 then (i * 5) % 256 else 0, 92, 1⟩)).data i =
      (⟨fun i => if i = 0 then 2 else if i ≤ 3 then 0 else if i < 76 then (i * 5) % 256 else 0, 92, 1⟩ : Packet).data i) :=
  ⟨by decide,
    C4_response_mac2_amended (fun n _ k i => (n.headD 0 + 37 * k + 11 * i + 5) % 256)
      (fun _ => List.replicate 32 7) (WireGuardObfuscator.mk false []) [1, 2] (by decide)
      41 (fun i => (i * 7 + 3) % 256)
      ⟨fun i => if i = 0 then 2 else if i ≤ 3 then 0 else if i < 76 then (i * 5) % 256 else 0, 92, 1⟩
      (by decide) (by decide) (by decide) (by decide) (by decide)⟩

/-- C9: evidence for the short-datagram bug of `Client.manglePacket`.
The source computes `ErrPacketTooShort` for any datagram shorter than 4
bytes but is missing the early `return`, so `packet[1] = byte(c.id)`
still executes: a 0- or 1-byte datagram hits an index-out-of-range
panic (modelled as `none`) instead of returning the error for the loop
to drop.  For comparison, a 2-byte datagram does come back with the
error (and is dropped by the loop), and a well-formed 5-byte datagram
is stamped and XORed with no error, as the claim describes. -/
theorem C9_manglePacket_short_datagram_panics :
    Client.manglePacket ⟨7, none⟩ [4] = none ∧
    Client.manglePacket ⟨7, none⟩ [9, 9] = some ([9, 7], some 2) ∧
    Client.manglePacket ⟨7, some [3]⟩ [1, 0, 0, 0, 5] = some ([2, 4, 3, 3, 6], none) := by
  refine ⟨rfl, rfl, ?_⟩
  decide

end Mwgp
